import Mathlib

/-!
Shallow embedding of the care-engine request-resolution workflow
(`src/resolution_engine.py` plus the store operations it uses from
`src/data_handler.py`).

Modelling conventions:
* Python floats (wallet balances, amounts, confidences) are embedded as `ℚ`.
* Python `bytes` is embedded as `List Nat`; only presence/emptiness is ever
  inspected by the code.
* MongoDB collections are embedded as lists of typed records; `find_one`
  returns the first record matching the key, `update_one` rewrites the first
  matching record, `insert_one` appends.  Records are assumed to carry their
  schema fields (the seed data in `populate_data.py` always provides them),
  so Python's `d["k"]` and `d.get("k")` coincide in the model.
* Store calls can raise (network faults); a `Faults` record assigns each
  data-handler method a fixed outcome: `none` (the call behaves normally) or
  `some e` (every call of that method raises an exception with text `e`).
  Raised exceptions are propagated in `Except`, carrying the store state at
  the moment of the raise (a raising call performs no write).
* The Gemini call and the JSON parsing of its reply (an external oracle plus
  the parse at lines 115-135 of `resolution_engine.py`) are embedded as an
  `OracleOutcome` input: a transport/runtime fault, a parse failure
  (`json.JSONDecodeError` / missing-field `ValueError`), or a parsed record
  with `status`, `message`, `confidence` (already converted by `float(...)`)
  and optional `reason`.
* `DB.wallet_writes` is a ghost audit trace: `update_wallet_balance` appends
  the pair it was called with.  It records exactly the wallet mutations and
  is read by no operation.
* Wall-clock timestamps (`escalation_time`) are omitted.
* Python renders numbers inside f-strings; `pyNum` stands in for `str(float)`
  and `fmt2` for the `:.2f` format (round half to even at two decimals).
  No claim depends on the digits produced by `pyNum`.
* `Char.isDigit` (ASCII) stands in for the regex class `\d`; messages are
  taken to be ASCII text.
-/

namespace CareEngine

/-- A customer record (`customers` collection); only the fields read by the
workflow are kept. -/
structure Customer where
  customer_id : String
  wallet_balance : ℚ
deriving DecidableEq, Repr

/-- An order record (`orders` collection). -/
structure Order where
  order_id : String
  customer_id : String
  status : String
  total_amount : ℚ
  order_date : String
  expected_delivery : String
deriving DecidableEq, Repr

/-- A payment record (`payments` collection); `refund_date` is present only
on refunded payments. -/
structure Payment where
  payment_id : String
  order_id : String
  customer_id : String
  status : String
  refund_date : Option String
deriving DecidableEq, Repr

/-- An escalation case as written by `MongoDBHandler.add_escalation`
(the wall-clock `escalation_time` field is omitted). -/
structure Escalation where
  case_id : String
  customer_id : String
  issue_details : String
  status : String
deriving DecidableEq, Repr

/-- The store state: the four collections the workflow touches, plus a ghost
trace of wallet mutations (each `update_wallet_balance` call appends its
arguments; no operation reads it). -/
structure DB where
  customers : List Customer
  orders : List Order
  payments : List Payment
  escalations : List Escalation
  wallet_writes : List (String × ℚ)
deriving DecidableEq, Repr

/-- `find_one` on the customers collection: first record with the given id. -/
def find_customer : List Customer → String → Option Customer
  | [], _ => none
  | c :: cs, cid => if c.customer_id = cid then some c else find_customer cs cid

/-- `find_one` on the orders collection. -/
def find_order : List Order → String → Option Order
  | [], _ => none
  | o :: os, oid => if o.order_id = oid then some o else find_order os oid

/-- `find_one` on the payments collection, keyed by `order_id`. -/
def find_payment_by_order : List Payment → String → Option Payment
  | [], _ => none
  | p :: ps, oid => if p.order_id = oid then some p else find_payment_by_order ps oid

/-- `MongoDBHandler.get_customer`. -/
def DB.get_customer (db : DB) (cid : String) : Option Customer :=
  find_customer db.customers cid

/-- `MongoDBHandler.get_order`. -/
def DB.get_order (db : DB) (oid : String) : Option Order :=
  find_order db.orders oid

/-- `get_order` applied to the state's nullable `order_id`
(`find_one({"order_id": None})` matches no record of the schema). -/
def DB.get_order_opt (db : DB) : Option String → Option Order
  | none => none
  | some oid => db.get_order oid

/-- `MongoDBHandler.get_order_payment`. -/
def DB.get_order_payment (db : DB) : Option String → Option Payment
  | none => none
  | some oid => find_payment_by_order db.payments oid

/-- `MongoDBHandler.get_customer_orders`: every order owned by the customer. -/
def DB.get_customer_orders (db : DB) (cid : String) : List Order :=
  db.orders.filter (fun o => o.customer_id = cid)

/-- `MongoDBHandler.get_failed_payments`. -/
def DB.get_failed_payments (db : DB) (cid : String) : List Payment :=
  db.payments.filter (fun p => p.customer_id = cid ∧ p.status = "failed")

/-- `update_one` on customers: rewrite the wallet balance of the first
record with the given id. -/
def set_wallet : List Customer → String → ℚ → List Customer
  | [], _, _ => []
  | c :: cs, cid, nb =>
    if c.customer_id = cid then { c with wallet_balance := nb } :: cs
    else c :: set_wallet cs cid nb

/-- `MongoDBHandler.update_wallet_balance`, instrumented with the ghost
`wallet_writes` trace. -/
def DB.update_wallet_balance (db : DB) (cid : String) (nb : ℚ) : DB :=
  { db with customers := set_wallet db.customers cid nb,
            wallet_writes := db.wallet_writes ++ [(cid, nb)] }

/-- `MongoDBHandler.add_escalation`: insert a pending escalation case. -/
def DB.add_escalation (db : DB) (case_id customer_id issue_details : String) : DB :=
  { db with escalations :=
      db.escalations ++ [{ case_id := case_id, customer_id := customer_id,
                           issue_details := issue_details, status := "pending" }] }

/-- Fault assignment for the store methods the workflow calls: `none` means
the method behaves normally, `some e` means every call of it raises an
exception whose `str()` is `e`. -/
structure Faults where
  getCustomer : Option String
  getOrder : Option String
  getOrderPayment : Option String
  getCustomerOrders : Option String
  getFailedPayments : Option String
  updateWallet : Option String
  addEscalation : Option String
deriving DecidableEq, Repr

/-- The fault-free store. -/
def noFaults : Faults :=
  { getCustomer := none, getOrder := none, getOrderPayment := none,
    getCustomerOrders := none, getFailedPayments := none,
    updateWallet := none, addEscalation := none }

deriving instance DecidableEq for Except

/-- Outcome of the Gemini round-trip, as seen after the JSON parse in
`_validate_refund_with_gemini` (lines 115-145): a transport/runtime fault, a
parse failure (`json.JSONDecodeError` or the missing-field `ValueError`), or
a parsed object with its `status`, `message`, `float(confidence)` and
optional `reason` fields. -/
inductive OracleOutcome where
  | fault (errText : String)
  | parseError
  | parsed (status : String) (message : String) (confidence : ℚ) (reason : Option String)
deriving DecidableEq, Repr

/-- The result dictionary of `_validate_refund_with_gemini`. -/
structure ValidationResult where
  status : String
  message : String
  confidence : ℚ
  reason : Option String
deriving DecidableEq, Repr

/-- The `AgentState` dictionary threaded through the workflow. -/
structure AgentState where
  intent : String
  message : String
  customer_id : String
  case_id : String
  order_id : Option String
  order_data : Option Order
  image_data : Option (List Nat)
  refund_amount : Option ℚ
  status : String
  response : String
  validation_result : Option ValidationResult
deriving DecidableEq, Repr

/-- Python truthiness of the optional `bytes` field: `None` and `b""` are
falsy. -/
def pyTruthyBytes : Option (List Nat) → Bool
  | none => false
  | some bs => !bs.isEmpty

/-- Python falsiness of the optional float `refund_amount`: `None` and `0.0`
are falsy. -/
def pyFalsyAmount : Option ℚ → Bool
  | none => true
  | some q => q = 0

/-- f-string rendering of a nullable string (`None` prints as "None"). -/
def pyOptStr : Option String → String
  | none => "None"
  | some s => s

/-- Stand-in for Python's `str()` of a float inside an f-string.  No claim
depends on the digits it produces. -/
def pyNum (q : ℚ) : String :=
  if q.den = 1 then toString q.num ++ ".0" else toString q

/-- Round `n / d` (with `d > 0`) to the nearest integer, ties to even (the
rounding used by Python's fixed-point formatting), written with integer
arithmetic so that it evaluates by kernel reduction. -/
def roundHalfEvenInt (n : ℤ) (d : ℕ) : ℤ :=
  let f := Int.fdiv n d
  let r := n - f * d
  if 2 * r < (d : ℤ) then f
  else if (d : ℤ) < 2 * r then f + 1
  else if f % 2 = 0 then f else f + 1

/-- Stand-in for Python's `f"{x:.2f}"` on the (clamped, hence non-negative)
confidence values the code formats: `q` is scaled by 100 and rounded half
to even. -/
def fmt2 (q : ℚ) : String :=
  let n := (roundHalfEvenInt (q.num * 100) q.den).toNat
  toString (n / 100) ++ "." ++ (if n % 100 < 10 then "0" else "") ++ toString (n % 100)

/-- Addition of two rationals, written with `mkRat` so that it evaluates by
kernel reduction; `qAdd_eq_add` below shows it is ordinary addition. -/
def qAdd (a b : ℚ) : ℚ :=
  mkRat (a.num * b.den + b.num * a.den) (a.den * b.den)

/-- `_extract_order_id`'s regex `ORD\d{3}` tested at the head of the text:
the literal `ORD` followed by three digits. -/
def ord_match_head : List Char → Option (List Char)
  | 'O' :: 'R' :: 'D' :: d1 :: d2 :: d3 :: _ =>
    if d1.isDigit ∧ d2.isDigit ∧ d3.isDigit then some ['O', 'R', 'D', d1, d2, d3]
    else none
  | _ => none

/-- `re.search`: try the pattern at each position, leftmost match wins. -/
def ord_search : List Char → Option (List Char)
  | [] => none
  | c :: cs =>
    match ord_match_head (c :: cs) with
    | some m => some m
    | none => ord_search cs

/-- `ResolutionAgent._extract_order_id`. -/
def extract_order_id (message : String) : Option String :=
  (ord_search message.data).map fun l => String.mk l

/-- Executable lexicographic comparison of character lists (the order Python
uses on `str`, restricted to the ASCII data appearing in this system). -/
def charListLe : List Char → List Char → Bool
  | [], _ => true
  | _ :: _, [] => false
  | a :: as, b :: bs => if a < b then true else if b < a then false else charListLe as bs

/-- The descending preorder on orders induced by a string key: `a` may come
before `b` when `a`'s key is at least `b`'s. -/
def keyGE (key : Order → String) (a b : Order) : Prop := key b ≤ key a

/-- `charListLe` decides the negation of the lexicographic strict order, which
is how `≤` on `String` is defined; unlike the iterator-based comparison behind
`String.decidableLE`, it evaluates by plain rewriting, so concrete sorts below
reduce. -/
instance (key : Order → String) : DecidableRel (keyGE key) :=
  fun a b => decidable_of_iff (charListLe (key b).data (key a).data = true) (by
    have hgen : ∀ s t : List Char,
        charListLe s t = true ↔ ¬ List.Lex (fun a b : Char => a < b) t s := by
      intro s
      induction s with
      | nil =>
        intro t
        cases t with
        | nil =>
          simp only [charListLe, true_iff]
          intro h
          cases h
        | cons c cs =>
          simp only [charListLe, true_iff]
          intro h
          cases h
      | cons c cs ih =>
        intro t
        cases t with
        | nil =>
          simp only [charListLe]
          constructor
          · intro h
            cases h
          · intro h
            exact absurd List.Lex.nil h
        | cons d ds =>
          simp only [charListLe]
          rcases lt_trichotomy c d with hcd | hcd | hcd
          · rw [if_pos hcd]
            constructor
            · intro _ h
              cases h with
              | cons h2 => exact absurd hcd (lt_irrefl _)
              | rel h2 => exact absurd h2 (asymm hcd)
            · intro _
              rfl
          · subst hcd
            rw [if_neg (lt_irrefl c), if_neg (lt_irrefl c), ih ds]
            constructor
            · intro h hlex
              cases hlex with
              | cons h2 => exact h h2
              | rel h2 => exact absurd h2 (lt_irrefl c)
            · intro h hlex
              exact h (List.Lex.cons hlex)
          · rw [if_neg (asymm hcd), if_pos hcd]
            constructor
            · intro h
              cases h
            · intro h
              exact absurd (List.Lex.rel hcd) h
    rw [hgen]
    show _ ↔ key b ≤ key a
    rw [String.le_iff_toList_le, ← not_lt]
    exact Iff.rfl)

instance (key : Order → String) : IsTotal Order (keyGE key) :=
  ⟨fun a b => le_total (key b) (key a)⟩

instance (key : Order → String) : IsTrans Order (keyGE key) :=
  ⟨fun _ _ _ h1 h2 => le_trans h2 h1⟩

/-- Python's stable `list.sort(key=k, reverse=True)` on string keys:
a stable sort that puts larger keys first.  (Any two stable sorts of the
same list under the same total preorder agree, so insertion sort models
CPython's Timsort faithfully.) -/
def pySortDescBy (key : Order → String) (l : List Order) : List Order :=
  l.insertionSort (keyGE key)

/-- The dictionary returned at lines 180-185 when anything inside the outer
`try` of `_validate_refund_with_gemini` raises. -/
def technical_error_result (e : String) : ValidationResult :=
  { status := "escalated",
    message := "Technical error during validation: " ++ e ++ ". Escalated for manual review.",
    confidence := 0, reason := some "technical_error" }

/-- The dictionary returned at lines 171-176 when the oracle reply fails to
parse or lacks a required field. -/
def parse_error_result : ValidationResult :=
  { status := "escalated",
    message := "Unable to analyze image properly. Escalated for manual review.",
    confidence := 0, reason := some "parsing_error" }

/-- Status coercion at lines 138-139: anything other than
`resolved`/`escalated` becomes `escalated`. -/
def coerceStatus (s : String) : String :=
  if s = "resolved" ∨ s = "escalated" then s else "escalated"

/-- Confidence clamping at lines 142-144: out-of-range values become `0.0`. -/
def clampConf (c : ℚ) : ℚ :=
  if c < 0 ∨ 1 < c then 0 else c

/-- Stand-in text for the `TypeError` Python would raise when adding a float
to `None` (it is caught at line 178; the exact text is not load-bearing). -/
def pyAddTypeError : String :=
  "TypeError: unsupported operand types for + (float and NoneType)"

/-- The outer `try` of `_validate_refund_with_gemini` (lines 97-185): oracle
call, reply validation, and the conditional wallet mutation.  Every
exception inside it — including faults of `get_customer` and
`update_wallet_balance` — is caught by the handler at line 178, so this
stage is total. -/
def gemini_stage (f : Faults) (oracle : OracleOutcome) (db : DB) (st : AgentState) :
    ValidationResult × DB :=
  match oracle with
  | .fault e => (technical_error_result e, db)
  | .parseError => (parse_error_result, db)
  | .parsed s m c r =>
    let s1 := coerceStatus s
    let c1 := clampConf c
    if s1 = "resolved" ∧ mkRat 7 10 ≤ c1 then
      match f.getCustomer with
      | some e => (technical_error_result e, db)
      | none =>
        match db.get_customer st.customer_id with
        | some customer =>
          match st.refund_amount with
          | none => (technical_error_result pyAddTypeError, db)
          | some ra =>
            let nb := qAdd customer.wallet_balance ra
            match f.updateWallet with
            | some e => (technical_error_result e, db)
            | none =>
              ({ status := s1,
                 message := "Refund of ₹" ++ pyNum ra ++
                   " processed successfully. New wallet balance: ₹" ++ pyNum nb,
                 confidence := c1, reason := r },
               db.update_wallet_balance st.customer_id nb)
        | none =>
          ({ status := "escalated",
             message := "Customer not found during refund processing. Escalated for manual review.",
             confidence := c1, reason := r }, db)
    else if c1 < mkRat 7 10 then
      ({ status := "escalated",
         message := "Image analysis inconclusive (confidence: " ++ fmt2 c1 ++
           "). Escalated for human review.",
         confidence := c1, reason := r }, db)
    else
      ({ status := s1, message := m, confidence := c1, reason := r }, db)

/-- The tail of the guard cascade (lines 87-185): the image check at line
88, then the oracle stage. -/
def image_guard_stage (f : Faults) (oracle : OracleOutcome) (db : DB) (st : AgentState) :
    Except (String × DB) (ValidationResult × DB) :=
  if pyTruthyBytes st.image_data then .ok (gemini_stage f oracle db st)
  else
    .ok ({ status := "escalated",
           message := "No valid image data provided for validation.",
           confidence := 0, reason := some "no_image" }, db)

/-- `ResolutionAgent._validate_refund_with_gemini` (lines 52-185).  The
`get_order`/`get_order_payment` calls at lines 57-58 sit outside any `try`,
so their faults propagate to the caller. -/
def validate_refund_with_gemini (f : Faults) (oracle : OracleOutcome) (db : DB)
    (st : AgentState) : Except (String × DB) (ValidationResult × DB) :=
  match f.getOrder with
  | some e => .error (e, db)
  | none =>
  match f.getOrderPayment with
  | some e => .error (e, db)
  | none =>
  match db.get_order_opt st.order_id with
  | none =>
    .ok ({ status := "escalated",
           message := "Order " ++ pyOptStr st.order_id ++ " not found. Escalated for manual review.",
           confidence := 0, reason := some "order_not_found" }, db)
  | some o =>
    if o.status = "cancelled" then
      .ok ({ status := "escalated",
             message := "Order " ++ pyOptStr st.order_id ++ " is cancelled. No refund applicable.",
             confidence := 0, reason := some "order_cancelled" }, db)
    else
      match db.get_order_payment st.order_id with
      | some p =>
        if p.status = "refunded" then
          .ok ({ status := "escalated",
                 message := "Order " ++ pyOptStr st.order_id ++ " was already refunded on " ++
                   pyOptStr p.refund_date ++ ".",
                 confidence := 0, reason := some "already_refunded" }, db)
        else image_guard_stage f oracle db st
      | none => image_guard_stage f oracle db st

/-- Serialized-text rendering of a validation-result dict inside
`json.dumps` (string escaping elided; the exact text is not load-bearing). -/
def validation_result_json (vr : ValidationResult) : String :=
  "\x7b\"status\": \"" ++ vr.status ++ "\", \"message\": \"" ++ vr.message ++
    "\", \"confidence\": " ++ pyNum vr.confidence ++
    (match vr.reason with
     | none => ""
     | some r => ", \"reason\": \"" ++ r ++ "\"") ++ "\x7d"

/-- The issue text built at lines 256-266: `json.dumps` of the escalation
details, prefixed with "Refund validation escalated: ". -/
def escalation_details_text (st : AgentState) (vr : ValidationResult) : String :=
  "Refund validation escalated: \x7b\"customer_message\": \"" ++ st.message ++
    "\", \"order_id\": " ++
    (match st.order_id with | none => "null" | some oid => "\"" ++ oid ++ "\"") ++
    ", \"refund_amount\": " ++
    (match st.refund_amount with | none => "null" | some ra => pyNum ra) ++
    ", \"validation_result\": " ++ validation_result_json vr ++
    ", \"image_provided\": true\x7d"

/-- The order-id inference of lines 199-206: all orders of the customer,
filtered to status `delivered`, sorted by order date descending (stable,
lexicographic on the stored string), first element's id. -/
def infer_order_id (db : DB) (cid : String) : Option String :=
  ((pySortDescBy (fun o => o.order_date)
      ((db.get_customer_orders cid).filter (fun o => o.status = "delivered"))).head?).map
    (fun o => o.order_id)

/-- `ResolutionAgent.fetch_order_node` (lines 187-235). -/
def fetch_order_node (f : Faults) (db : DB) (st : AgentState) :
    Except (String × DB) (AgentState × DB) :=
  if st.intent = "REFUND_REQUEST" then
    let oid0 := extract_order_id st.message
    -- lines 196-208: inference from the most recent delivered order;
    -- a `get_customer_orders` fault is caught at line 207 and only logged
    let oid1 :=
      if oid0 = none ∧ pyTruthyBytes st.image_data then
        match f.getCustomerOrders with
        | some _ => none
        | none => infer_order_id db st.customer_id
      else oid0
    let st1 := { st with order_id := oid1 }
    -- lines 229-233: no (truthy) order id
    let noOrd : Except (String × DB) (AgentState × DB) :=
      match f.addEscalation with
      | some e => .error (e, db)
      | none =>
        .ok ({ st1 with
                 status := "escalated",
                 response := "Please provide a valid order ID (e.g., ORD001) for your refund request." },
             db.add_escalation st1.case_id st1.customer_id
               ("No order ID provided: " ++ st1.message))
    match oid1 with
    | none => noOrd
    | some oid =>
      if oid = "" then noOrd
      else
        -- the `try` at lines 211-222
        let attempt : Except String (AgentState × DB) :=
          match f.getOrder with
          | some e => .error e
          | none =>
            match db.get_order oid with
            | none =>
              match f.addEscalation with
              | some e => .error e
              | none =>
                .ok ({ st1 with
                         order_data := none,
                         status := "escalated",
                         response := "Order " ++ oid ++ " not found. Escalated for manual review." },
                     db.add_escalation st1.case_id st1.customer_id
                       ("Order not found: " ++ st1.message))
            | some od =>
              let ra := if pyFalsyAmount st1.refund_amount then some od.total_amount
                        else st1.refund_amount
              .ok ({ st1 with order_data := some od, refund_amount := ra }, db)
        match attempt with
        | .ok r => .ok r
        | .error e =>
          -- the handler at lines 223-228; its own insert raises under the
          -- same fault assignment
          match f.addEscalation with
          | some e2 => .error (e2, db)
          | none =>
            .ok ({ st1 with
                     status := "escalated",
                     response := "Error retrieving order " ++ oid ++ ". Escalated for manual review." },
                 db.add_escalation st1.case_id st1.customer_id
                   ("Error fetching order: " ++ e ++ ". Message: " ++ st1.message))
  else .ok (st, db)

/-- `ResolutionAgent.refund_decision_node` (lines 237-284).  Under a fixed
fault assignment, when the escalation insert inside the `try` raises, the
handler at lines 270-278 re-raises the same exception from its own insert,
so both collapse to one propagated error. -/
def refund_decision_node (f : Faults) (oracle : OracleOutcome) (db : DB) (st : AgentState) :
    Except (String × DB) (AgentState × DB) :=
  if st.intent = "REFUND_REQUEST" ∧ st.order_data.isSome then
    if pyTruthyBytes st.image_data then
      match validate_refund_with_gemini f oracle db st with
      | .ok (vr, db1) =>
        let st1 := { st with
                       validation_result := some vr,
                       status := vr.status,
                       response := vr.message }
        if vr.status = "escalated" then
          match f.addEscalation with
          | some e => .error (e, db1)
          | none =>
            .ok (st1, db1.add_escalation st.case_id st.customer_id
                   (escalation_details_text st1 vr))
        else .ok (st1, db1)
      | .error (e, db1) =>
        match f.addEscalation with
        | some e2 => .error (e2, db1)
        | none =>
          .ok ({ st with
                   status := "escalated",
                   response := "Technical error during validation. Escalated for manual review." },
               db1.add_escalation st.case_id st.customer_id
                 ("Technical error: " ++ e ++ ". Message: " ++ st.message))
    else
      .ok ({ st with
               status := "pending_image",
               response := "Please upload an image of the damaged item for order " ++
                 pyOptStr st.order_id ++ " to process your refund." }, db)
  else .ok (st, db)

/-- `ResolutionAgent.handle_other_intents_node` (lines 286-343).  None of its
store calls sit inside a `try`, so their faults propagate. -/
def handle_other_intents_node (f : Faults) (db : DB) (st : AgentState) :
    Except (String × DB) (AgentState × DB) :=
  if st.intent ≠ "REFUND_REQUEST" then
    match f.getCustomer with
    | some e => .error (e, db)
    | none =>
    match db.get_customer st.customer_id with
    | none => .ok ({ st with status := "error", response := "Customer not found." }, db)
    | some customer =>
      if st.intent = "WALLET_ISSUE" then
        match f.getFailedPayments with
        | some e => .error (e, db)
        | none =>
          if (db.get_failed_payments st.customer_id).isEmpty then
            .ok ({ st with
                     status := "resolved",
                     response := "Your wallet balance is ₹" ++ pyNum customer.wallet_balance ++
                       ". No issues detected." }, db)
          else
            match f.addEscalation with
            | some e => .error (e, db)
            | none =>
              .ok ({ st with
                       status := "escalated",
                       response := "We\x27ve detected payment issues. Escalated for review." },
                   db.add_escalation st.case_id st.customer_id st.message)
      else if st.intent = "DELIVERY_ISSUE" then
        match extract_order_id st.message with
        | some oid =>
          match f.getOrder with
          | some e => .error (e, db)
          | none =>
          match db.get_order oid with
          | some o =>
            .ok ({ st with
                     status := "resolved",
                     response := "Order " ++ oid ++ " status: " ++ o.status ++
                       ". Expected delivery: " ++ o.expected_delivery ++ "." }, db)
          | none =>
            match f.addEscalation with
            | some e => .error (e, db)
            | none =>
              .ok ({ st with
                       status := "escalated",
                       response := "Unable to track delivery. Escalated for manual review." },
                   db.add_escalation st.case_id st.customer_id st.message)
        | none => .ok (st, db)
      else if st.intent = "PAYMENT_PROBLEM" then
        match f.getFailedPayments with
        | some e => .error (e, db)
        | none =>
          let fp := db.get_failed_payments st.customer_id
          if fp.isEmpty then
            .ok ({ st with status := "resolved", response := "No payment issues found." }, db)
          else
            match f.addEscalation with
            | some e => .error (e, db)
            | none =>
              .ok ({ st with
                       status := "escalated",
                       response := "Found " ++ toString fp.length ++
                         " failed payment(s). Escalated for review." },
                   db.add_escalation st.case_id st.customer_id st.message)
      else if st.intent = "ORDER_STATUS" then
        match extract_order_id st.message with
        | some oid =>
          match f.getOrder with
          | some e => .error (e, db)
          | none =>
          match db.get_order oid with
          | some o =>
            .ok ({ st with
                     status := "resolved",
                     response := "Order " ++ oid ++ " status: " ++ o.status ++
                       ". Expected delivery: " ++ o.expected_delivery ++ "." }, db)
          | none =>
            match f.addEscalation with
            | some e => .error (e, db)
            | none =>
              .ok ({ st with
                       status := "escalated",
                       response := "Order not found. Please provide a valid order ID." },
                   db.add_escalation st.case_id st.customer_id st.message)
        | none => .ok (st, db)
      else
        match f.addEscalation with
        | some e => .error (e, db)
        | none =>
          .ok ({ st with
                   status := "escalated",
                   response := "Unable to process your request automatically. Escalated for manual review." },
               db.add_escalation st.case_id st.customer_id st.message)
  else .ok (st, db)

/-- `ResolutionAgent._should_process_refund` (lines 345-356). -/
def should_process_refund (st : AgentState) : String :=
  if st.intent ≠ "REFUND_REQUEST" then "handle_other_intents"
  else if st.status = "escalated" then "END"
  else if !st.order_data.isSome then "END"
  else "refund_decision"

/-- The compiled LangGraph workflow (lines 358-385): `fetch_order`, then the
conditional edge chosen by `_should_process_refund`. -/
def run_workflow (f : Faults) (oracle : OracleOutcome) (db : DB) (st : AgentState) :
    Except (String × DB) (AgentState × DB) :=
  match fetch_order_node f db st with
  | .error e => .error e
  | .ok (st1, db1) =>
    if should_process_refund st1 = "refund_decision" then
      refund_decision_node f oracle db1 st1
    else if should_process_refund st1 = "handle_other_intents" then
      handle_other_intents_node f db1 st1
    else .ok (st1, db1)

/-- The response dictionary of `process_request`; optional keys are absent
(`none`) when the source does not set them. -/
structure Response where
  status : String
  message : String
  case_id : Option String
  order_id : Option String
  validation_details : Option ValidationResult
  error : Option String
deriving DecidableEq, Repr

/-- The initial state built at lines 393-405. -/
def initial_state (intent message customer_id case_id : String)
    (image_data : Option (List Nat)) (refund_amount : Option ℚ) : AgentState :=
  { intent := intent, message := message, customer_id := customer_id,
    case_id := case_id, order_id := none, order_data := none,
    image_data := image_data, refund_amount := refund_amount,
    status := "pending", response := "Processing your request...",
    validation_result := none }

/-- `ResolutionAgent.process_request` (lines 387-446).  The shape check at
line 412 always passes because the typed state carries `status` and
`response`; the top-level handler at lines 431-446 persists an escalation
and answers `escalated`, unless its own insert raises (then the exception
leaves `process_request`). -/
def process_request (f : Faults) (oracle : OracleOutcome) (db : DB)
    (intent message customer_id case_id : String)
    (image_data : Option (List Nat)) (refund_amount : Option ℚ) :
    Except (String × DB) (Response × DB) :=
  match run_workflow f oracle db
      (initial_state intent message customer_id case_id image_data refund_amount) with
  | .ok (st, db1) =>
    .ok ({ status := st.status, message := st.response, case_id := some st.case_id,
           order_id := st.order_id, validation_details := st.validation_result,
           error := none }, db1)
  | .error (e, db1) =>
    match f.addEscalation with
    | some e2 => .error (e2, db1)
    | none =>
      .ok ({ status := "escalated",
             message := "We encountered a technical issue processing your request. It has been escalated for manual review.",
             case_id := some case_id, order_id := none, validation_details := none,
             error := some e },
           db1.add_escalation case_id customer_id
             ("Workflow error: " ++ e ++ ". Original message: " ++ message))

/-- The guard conjunction named by claim C1: order found, not cancelled, no
prior refunded payment, image bytes present and non-empty, oracle verdict
`resolved`, confidence at least 0.7. -/
def approval_conditions (db : DB) (st : AgentState) (s : String) (c : ℚ) : Prop :=
  (∃ o, db.get_order_opt st.order_id = some o ∧ o.status ≠ "cancelled") ∧
  (∀ p, db.get_order_payment st.order_id = some p → p.status ≠ "refunded") ∧
  pyTruthyBytes st.image_data = true ∧
  s = "resolved" ∧ mkRat 7 10 ≤ c

/-! ### Concrete fixtures used by witnesses and counterexamples -/

/-- The customer of the spec's worked scenario (§8): wallet balance 500. -/
def cust1 : Customer := { customer_id := "C1", wallet_balance := 500 }

/-- A delivered order of total 250 for `cust1`. -/
def ord7 : Order :=
  { order_id := "ORD007"
    customer_id := "C1"
    status := "delivered"
    total_amount := 250
    order_date := "2024-01-05"
    expected_delivery := "2024-01-10" }

/-- A pending payment for `ord7`. -/
def pay7 : Payment :=
  { payment_id := "P7"
    order_id := "ORD007"
    customer_id := "C1"
    status := "pending"
    refund_date := none }

/-- A store holding exactly `cust1`, `ord7` and `pay7`. -/
def db0 : DB :=
  { customers := [cust1]
    orders := [ord7]
    payments := [pay7]
    escalations := []
    wallet_writes := [] }

/-- A refunded payment for `ord7`. -/
def pay7r : Payment :=
  { payment_id := "P7"
    order_id := "ORD007"
    customer_id := "C1"
    status := "refunded"
    refund_date := some "2024-02-01" }

/-- `db0` with the payment already refunded. -/
def db1 : DB :=
  { customers := [cust1]
    orders := [ord7]
    payments := [pay7r]
    escalations := []
    wallet_writes := [] }

/-- The workflow state as `refund_decision_node` passes it to the validator
for `ord7` with an image attached. -/
def stW : AgentState :=
  { intent := "REFUND_REQUEST"
    message := "refund ORD007"
    customer_id := "C1"
    case_id := "K1"
    order_id := some "ORD007"
    order_data := some ord7
    image_data := some [1, 2, 3]
    refund_amount := some 250
    status := "pending"
    response := "Processing your request..."
    validation_result := none }

/-- A later delivered order for `cust1`, used by the inference witness. -/
def ordY : Order :=
  { order_id := "ORD009"
    customer_id := "C1"
    status := "delivered"
    total_amount := 100
    order_date := "2024-02-01"
    expected_delivery := "2024-02-05" }

/-- A store with two delivered orders for `cust1`. -/
def dbC7 : DB :=
  { customers := [cust1]
    orders := [ord7, ordY]
    payments := []
    escalations := []
    wallet_writes := [] }

/-- A refund request carrying an image but no order reference. -/
def stC7 : AgentState :=
  { intent := "REFUND_REQUEST"
    message := "my parcel arrived broken"
    customer_id := "C1"
    case_id := "K10"
    order_id := none
    order_data := none
    image_data := some [7]
    refund_amount := none
    status := "pending"
    response := "Processing your request..."
    validation_result := none }

/-! ### Basic facts about order-reference extraction -/

theorem ord_match_head_shape {cs m : List Char} (h : ord_match_head cs = some m) :
    ∃ d1 d2 d3 rest, m = ['O', 'R', 'D', d1, d2, d3] ∧
      d1.isDigit ∧ d2.isDigit ∧ d3.isDigit ∧ cs = m ++ rest := by
  unfold ord_match_head at h
  split at h
  case _ d1 d2 d3 rest =>
    split at h
    case isTrue hd =>
      injection h with h
      subst h
      exact ⟨d1, d2, d3, rest, rfl, hd.1, hd.2.1, hd.2.2, rfl⟩
    case isFalse => exact absurd h (by simp)
  case _ => exact absurd h (by simp)

theorem ord_search_eq_some_iff (cs : List Char) (m : List Char) :
    ord_search cs = some m ↔
      ∃ i, ord_match_head (cs.drop i) = some m ∧
        ∀ j, j < i → ord_match_head (cs.drop j) = none := by
  induction cs with
  | nil =>
    simp only [ord_search, List.drop_nil]
    constructor
    · intro h; exact absurd h (by simp)
    · rintro ⟨i, hi, -⟩
      exact absurd hi (by simp [ord_match_head])
  | cons c cs ih =>
    simp only [ord_search]
    rcases hh : ord_match_head (c :: cs) with _ | m0
    · simp only []
      rw [ih]
      constructor
      · rintro ⟨i, hi, hlt⟩
        refine ⟨i + 1, by simpa using hi, ?_⟩
        intro j hj
        match j with
        | 0 => simpa using hh
        | j + 1 =>
          have : j < i := by omega
          simpa using hlt j this
      · rintro ⟨i, hi, hlt⟩
        match i with
        | 0 => simp only [List.drop_zero] at hi; exact absurd hi (by simp [hh])
        | i + 1 =>
          refine ⟨i, by simpa using hi, ?_⟩
          intro j hj
          have := hlt (j + 1) (by omega)
          simpa using this
    · simp only []
      constructor
      · intro h
        refine ⟨0, ?_, by omega⟩
        simpa [hh] using h
      · rintro ⟨i, hi, hlt⟩
        match i with
        | 0 => simp only [List.drop_zero] at hi; rw [hh] at hi; exact hi
        | i + 1 =>
          have := hlt 0 (by omega)
          simp only [List.drop_zero] at this
          exact absurd this (by simp [hh])

theorem ord_search_eq_none_iff (cs : List Char) :
    ord_search cs = none ↔ ∀ i, ord_match_head (cs.drop i) = none := by
  induction cs with
  | nil =>
    simp [ord_search, List.drop_nil, ord_match_head]
  | cons c cs ih =>
    simp only [ord_search]
    rcases hh : ord_match_head (c :: cs) with _ | m0
    · simp only []
      rw [ih]
      constructor
      · intro h i
        match i with
        | 0 => simpa using hh
        | i + 1 => simpa using h i
      · intro h i
        have := h (i + 1)
        simpa using this
    · simp only []
      constructor
      · intro h; exact absurd h (by simp)
      · intro h
        have := h 0
        simp only [List.drop_zero] at this
        exact absurd this (by simp [hh])

/-- An extracted order reference is never the empty string. -/
theorem extract_order_id_ne_empty {s : String} {t : String}
    (h : extract_order_id s = some t) : t ≠ "" := by
  unfold extract_order_id at h
  rcases hs : ord_search s.data with _ | m
  · rw [hs] at h; exact absurd h (by simp)
  · rw [hs] at h
    rw [show (some m).map (fun l => String.mk l) = some (String.mk m) from rfl] at h
    obtain ⟨i, hi, -⟩ := (ord_search_eq_some_iff s.data m).mp hs
    obtain ⟨d1, d2, d3, rest, hm, -⟩ := ord_match_head_shape hi
    subst hm
    injection h with h
    intro hc
    rw [hc] at h
    have hd : ('O' :: 'R' :: 'D' :: d1 :: d2 :: d3 :: [] : List Char) = [] :=
      congrArg String.data h
    exact absurd hd (by simp)

/-- C8 (counterexample): on a message containing `ORD` followed by more than
three digits, `_extract_order_id` still returns a reference made of the
first three digits — the pattern `ORD\d\d\d` is not anchored against a
longer digit run, contradicting the claim that such a substring yields no
reference. -/
theorem C8_counterexample :
    extract_order_id "Refund ORD1234 please" = some "ORD123" ∧
    extract_order_id "Refund ORD1234 please" ≠ none := by
  constructor
  · decide
  · decide

/-- C8 (amended): `_extract_order_id` returns the match of `ORD` plus three
digits at the leftmost position where one starts (case-sensitively), and
`none` exactly when no position starts such a match; the three digits need
not be maximal — `ORD` followed by a longer digit run still yields its
first three digits. -/
theorem C8_amended_first_match (s : String) :
    (extract_order_id s = none ↔ ∀ i, ord_match_head (s.data.drop i) = none) ∧
    (∀ t, extract_order_id s = some t →
      ∃ i d1 d2 d3,
        t = String.mk ['O', 'R', 'D', d1, d2, d3] ∧
        d1.isDigit ∧ d2.isDigit ∧ d3.isDigit ∧
        ord_match_head (s.data.drop i) = some t.data ∧
        ∀ j, j < i → ord_match_head (s.data.drop j) = none) := by
  constructor
  · unfold extract_order_id
    rcases hs : ord_search s.data with _ | m
    · simpa [hs] using (ord_search_eq_none_iff s.data).mp hs
    · simp only [Option.map]
      constructor
      · intro h; exact absurd h (by simp)
      · intro h
        have := (ord_search_eq_none_iff s.data).mpr h
        rw [hs] at this
        exact absurd this (by simp)
  · intro t ht
    unfold extract_order_id at ht
    rcases hs : ord_search s.data with _ | m
    · rw [hs] at ht; exact absurd ht (by simp)
    · rw [hs] at ht
      rw [show (some m).map (fun l => String.mk l) = some (String.mk m) from rfl] at ht
      injection ht with ht
      obtain ⟨i, hi, hmin⟩ := (ord_search_eq_some_iff s.data m).mp hs
      obtain ⟨d1, d2, d3, rest, hm, h1, h2, h3, -⟩ := ord_match_head_shape hi
      refine ⟨i, d1, d2, d3, ?_, h1, h2, h3, ?_, hmin⟩
      · rw [← ht, hm]
      · rw [← ht]
        exact hi

/-- Witness for C8 (amended) at the concrete message "xORD123". -/
theorem C8_amended_first_match_witness :
    ∃ i d1 d2 d3,
      ("ORD123" : String) = String.mk ['O', 'R', 'D', d1, d2, d3] ∧
      d1.isDigit ∧ d2.isDigit ∧ d3.isDigit ∧
      ord_match_head (("xORD123" : String).data.drop i) = some ("ORD123" : String).data ∧
      ∀ j, j < i → ord_match_head (("xORD123" : String).data.drop j) = none :=
  (C8_amended_first_match "xORD123").2 "ORD123" (by decide)

/-! ### Facts about the refund validator -/

/-- `qAdd` is ordinary rational addition. -/
theorem qAdd_eq_add (a b : ℚ) : qAdd a b = a + b :=
  (Rat.add_def' a b).symm

/-- The threshold constant of the source, `0.7`, as `mkRat`. -/
theorem mkRat_seven_ten : mkRat 7 10 = (7 : ℚ) / 10 := by
  rw [Rat.mkRat_eq_divInt, Rat.divInt_eq_div]
  norm_num

theorem coerceStatus_eq_resolved (s : String) :
    coerceStatus s = "resolved" ↔ s = "resolved" := by
  unfold coerceStatus
  split
  case isTrue h => exact Iff.rfl
  case isFalse h =>
    constructor
    · intro hc; exact absurd hc (by decide)
    · intro hs; exact absurd (Or.inl hs) h

theorem clampConf_of_bounds {c : ℚ} (h0 : 0 ≤ c) (h1 : c ≤ 1) : clampConf c = c := by
  unfold clampConf
  split
  case isTrue h => rcases h with h | h <;> linarith
  case isFalse => rfl

/-- Approved branch of the oracle stage (lines 150-156): verdict `resolved`,
clamped confidence at least 0.7, customer found — the wallet is written. -/
theorem gemini_stage_approved (db : DB) (st : AgentState) (m : String) (c : ℚ)
    (r : Option String) (cust : Customer) (ra : ℚ)
    (hcc : mkRat 7 10 ≤ clampConf c)
    (hcust : db.get_customer st.customer_id = some cust)
    (hra : st.refund_amount = some ra) :
    gemini_stage noFaults (.parsed "resolved" m c r) db st =
      ({ status := "resolved",
         message := "Refund of ₹" ++ pyNum ra ++
           " processed successfully. New wallet balance: ₹" ++
           pyNum (cust.wallet_balance + ra),
         confidence := clampConf c, reason := r },
       db.update_wallet_balance st.customer_id (cust.wallet_balance + ra)) := by
  unfold gemini_stage
  simp only []
  rw [if_pos ⟨(by decide : coerceStatus "resolved" = "resolved"), hcc⟩]
  simp only [noFaults]
  rw [hcust]
  simp only []
  rw [hra]
  simp only []
  rw [show coerceStatus "resolved" = "resolved" from by decide, qAdd_eq_add]

/-- If the verdict is not `resolved` or the clamped confidence is below 0.7,
the oracle stage leaves the store untouched. -/
theorem gemini_stage_db_unchanged (f : Faults) (db : DB) (st : AgentState)
    (s m : String) (c : ℚ) (r : Option String)
    (h : ¬(s = "resolved" ∧ mkRat 7 10 ≤ clampConf c)) :
    (gemini_stage f (.parsed s m c r) db st).2 = db := by
  unfold gemini_stage
  simp only []
  have hcond : ¬(coerceStatus s = "resolved" ∧ mkRat 7 10 ≤ clampConf c) := by
    intro hc
    exact h ⟨(coerceStatus_eq_resolved s).mp hc.1, hc.2⟩
  rw [if_neg hcond]
  split <;> rfl

/-- Low-confidence branch of the oracle stage (lines 162-165): status forced
to `escalated` with the confidence named in the message. -/
theorem gemini_stage_low_confidence (f : Faults) (db : DB) (st : AgentState)
    (s m : String) (c : ℚ) (r : Option String)
    (hcc : clampConf c < mkRat 7 10) :
    gemini_stage f (.parsed s m c r) db st =
      ({ status := "escalated",
         message := "Image analysis inconclusive (confidence: " ++ fmt2 (clampConf c) ++
           "). Escalated for human review.",
         confidence := clampConf c, reason := r }, db) := by
  unfold gemini_stage
  simp only []
  have hcond : ¬(coerceStatus s = "resolved" ∧ mkRat 7 10 ≤ clampConf c) := by
    rintro ⟨-, hc⟩
    linarith
  rw [if_neg hcond, if_pos hcc]

/-- C1: under the spec's contracts (the caller has verified the customer,
`fetch_order_node` has filled the refund amount, and the oracle reports a
confidence within [0, 1]), the wallet mutation happens if and only if all
of: order found, order not cancelled, payment not already refunded, image
present and non-empty, parsed status `resolved`, parsed confidence ≥ 0.7 —
with confidence exactly 0.7 approving and anything below not. -/
theorem C1_wallet_mutation_iff
    (db : DB) (st : AgentState) (s m : String) (c : ℚ) (r : Option String)
    (cust : Customer) (ra : ℚ)
    (hcust : db.get_customer st.customer_id = some cust)
    (hra : st.refund_amount = some ra)
    (hc0 : 0 ≤ c) (hc1 : c ≤ 1) :
    ∀ vr db',
      validate_refund_with_gemini noFaults (.parsed s m c r) db st = .ok (vr, db') →
      (approval_conditions db st s c →
         db' = db.update_wallet_balance st.customer_id (cust.wallet_balance + ra)) ∧
      (¬ approval_conditions db st s c → db' = db) ∧
      (db'.wallet_writes ≠ db.wallet_writes ↔ approval_conditions db st s c) := by
  intro vr db' h
  have hclamp : clampConf c = c := clampConf_of_bounds hc0 hc1
  -- a helper to close every branch in which the store is unchanged
  have unchanged :
      ∀ (hdb : db' = db) (hnc : ¬ approval_conditions db st s c),
        (approval_conditions db st s c →
           db' = db.update_wallet_balance st.customer_id (cust.wallet_balance + ra)) ∧
        (¬ approval_conditions db st s c → db' = db) ∧
        (db'.wallet_writes ≠ db.wallet_writes ↔ approval_conditions db st s c) := by
    intro hdb hnc
    refine ⟨fun hac => absurd hac hnc, fun _ => hdb, ?_⟩
    rw [hdb]
    simp [hnc]
  rcases hor : db.get_order_opt st.order_id with _ | o
  · unfold validate_refund_with_gemini at h
    simp only [noFaults] at h
    rw [hor] at h
    simp only [Except.ok.injEq, Prod.mk.injEq] at h
    refine unchanged h.2.symm ?_
    rintro ⟨⟨o, ho, -⟩, -⟩
    rw [hor] at ho
    exact absurd ho (by simp)
  · by_cases hcanc : o.status = "cancelled"
    · unfold validate_refund_with_gemini at h
      simp only [noFaults] at h
      rw [hor] at h
      simp only [] at h
      rw [if_pos hcanc] at h
      simp only [Except.ok.injEq, Prod.mk.injEq] at h
      refine unchanged h.2.symm ?_
      rintro ⟨⟨o', ho', hno'⟩, -⟩
      rw [hor] at ho'
      injection ho' with ho'
      exact hno' (ho' ▸ hcanc)
    · -- order found and not cancelled: reduce to the payment guard
      have hpay_done :
          ∀ (himg : image_guard_stage noFaults (.parsed s m c r) db st = .ok (vr, db'))
            (hpok : ∀ p, db.get_order_payment st.order_id = some p → p.status ≠ "refunded"),
          (approval_conditions db st s c →
             db' = db.update_wallet_balance st.customer_id (cust.wallet_balance + ra)) ∧
          (¬ approval_conditions db st s c → db' = db) ∧
          (db'.wallet_writes ≠ db.wallet_writes ↔ approval_conditions db st s c) := by
        intro himg hpok
        by_cases hi : pyTruthyBytes st.image_data = true
        · unfold image_guard_stage at himg
          rw [if_pos hi] at himg
          by_cases happ : s = "resolved" ∧ mkRat 7 10 ≤ c
          · obtain ⟨hs, hcc⟩ := happ
            subst hs
            rw [gemini_stage_approved db st m c r cust ra (by rw [hclamp]; exact hcc)
              hcust hra] at himg
            simp only [Except.ok.injEq, Prod.mk.injEq] at himg
            obtain ⟨-, hdb⟩ := himg
            have hac : approval_conditions db st "resolved" c :=
              ⟨⟨o, hor, hcanc⟩, hpok, hi, rfl, hcc⟩
            refine ⟨fun _ => hdb.symm, fun hn => absurd hac hn, ?_⟩
            rw [← hdb]
            simp only [DB.update_wallet_balance]
            constructor
            · exact fun _ => hac
            · intro _ heq
              have hlen := congrArg List.length heq
              simp only [List.length_append, List.length_cons, List.length_nil] at hlen
              omega
          · have hdb : db' = db := by
              have h2 := gemini_stage_db_unchanged noFaults db st s m c r
                (by rw [hclamp]; exact happ)
              rcases hg : gemini_stage noFaults (.parsed s m c r) db st with ⟨vr2, db2⟩
              rw [hg] at himg h2
              simp only [Except.ok.injEq, Prod.mk.injEq] at himg
              rw [← himg.2]
              exact h2
            refine unchanged hdb ?_
            rintro ⟨-, -, -, hs, hcc⟩
            exact happ ⟨hs, hcc⟩
        · unfold image_guard_stage at himg
          rw [if_neg hi] at himg
          simp only [Except.ok.injEq, Prod.mk.injEq] at himg
          refine unchanged himg.2.symm ?_
          rintro ⟨-, -, hit, -⟩
          exact hi hit
      rcases hp : db.get_order_payment st.order_id with _ | p
      · unfold validate_refund_with_gemini at h
        simp only [noFaults] at h
        rw [hor] at h
        simp only [] at h
        rw [if_neg hcanc] at h
        rw [hp] at h
        simp only [] at h
        exact hpay_done h (by intro p hp'; rw [hp] at hp'; exact absurd hp' (by simp))
      · by_cases hpr : p.status = "refunded"
        · unfold validate_refund_with_gemini at h
          simp only [noFaults] at h
          rw [hor] at h
          simp only [] at h
          rw [if_neg hcanc] at h
          rw [hp] at h
          simp only [] at h
          rw [if_pos hpr] at h
          simp only [Except.ok.injEq, Prod.mk.injEq] at h
          refine unchanged h.2.symm ?_
          rintro ⟨-, hpok, -⟩
          exact hpok p hp hpr
        · unfold validate_refund_with_gemini at h
          simp only [noFaults] at h
          rw [hor] at h
          simp only [] at h
          rw [if_neg hcanc] at h
          rw [hp] at h
          simp only [] at h
          rw [if_neg hpr] at h
          exact hpay_done h (by
            intro p' hp'
            rw [hp] at hp'
            injection hp' with hp'
            exact hp' ▸ hpr)

/-- Witness for C1 at the boundary confidence exactly 0.7: all guards hold,
so the wallet-mutation trace grows. -/
theorem C1_wallet_mutation_iff_witness :
    (db0.update_wallet_balance "C1" (mkRat 750 1)).wallet_writes ≠ db0.wallet_writes ↔
      approval_conditions db0 stW "resolved" (mkRat 7 10) :=
  (C1_wallet_mutation_iff db0 stW "resolved" "damage visible" (mkRat 7 10) none cust1 250
      (by decide) (by decide) (by decide) (by decide)
      { status := "resolved"
        message := "Refund of ₹250.0 processed successfully. New wallet balance: ₹750.0"
        confidence := mkRat 7 10
        reason := none }
      (db0.update_wallet_balance "C1" (mkRat 750 1)) (by decide)).2.2

/-- C9: the validator's guards short-circuit in exactly the source order —
missing order, cancelled order, already-refunded payment (with the prior
refund date in the message), missing image — each with its named reason, and
only once all four pass is the oracle stage entered. -/
theorem C9_guard_short_circuit (db : DB) (st : AgentState) (oracle : OracleOutcome) :
    (db.get_order_opt st.order_id = none →
      validate_refund_with_gemini noFaults oracle db st =
        .ok ({ status := "escalated",
               message := "Order " ++ pyOptStr st.order_id ++
                 " not found. Escalated for manual review.",
               confidence := 0, reason := some "order_not_found" }, db)) ∧
    (∀ o, db.get_order_opt st.order_id = some o → o.status = "cancelled" →
      validate_refund_with_gemini noFaults oracle db st =
        .ok ({ status := "escalated",
               message := "Order " ++ pyOptStr st.order_id ++
                 " is cancelled. No refund applicable.",
               confidence := 0, reason := some "order_cancelled" }, db)) ∧
    (∀ o p, db.get_order_opt st.order_id = some o → o.status ≠ "cancelled" →
      db.get_order_payment st.order_id = some p → p.status = "refunded" →
      validate_refund_with_gemini noFaults oracle db st =
        .ok ({ status := "escalated",
               message := "Order " ++ pyOptStr st.order_id ++ " was already refunded on " ++
                 pyOptStr p.refund_date ++ ".",
               confidence := 0, reason := some "already_refunded" }, db)) ∧
    (∀ o, db.get_order_opt st.order_id = some o → o.status ≠ "cancelled" →
      (∀ p, db.get_order_payment st.order_id = some p → p.status ≠ "refunded") →
      pyTruthyBytes st.image_data = false →
      validate_refund_with_gemini noFaults oracle db st =
        .ok ({ status := "escalated",
               message := "No valid image data provided for validation.",
               confidence := 0, reason := some "no_image" }, db)) ∧
    (∀ o, db.get_order_opt st.order_id = some o → o.status ≠ "cancelled" →
      (∀ p, db.get_order_payment st.order_id = some p → p.status ≠ "refunded") →
      pyTruthyBytes st.image_data = true →
      validate_refund_with_gemini noFaults oracle db st =
        .ok (gemini_stage noFaults oracle db st)) := by
  refine ⟨?_, ?_, ?_, ?_, ?_⟩
  · intro h
    unfold validate_refund_with_gemini
    simp only [noFaults]
    rw [h]
  · intro o ho hcanc
    unfold validate_refund_with_gemini
    simp only [noFaults]
    rw [ho]
    simp only []
    rw [if_pos hcanc]
  · intro o p ho hcanc hp hpr
    unfold validate_refund_with_gemini
    simp only [noFaults]
    rw [ho]
    simp only []
    rw [if_neg hcanc, hp]
    simp only []
    rw [if_pos hpr]
  · intro o ho hcanc hpok himg
    unfold validate_refund_with_gemini
    simp only [noFaults]
    rw [ho]
    simp only []
    rw [if_neg hcanc]
    have himg2 : image_guard_stage noFaults oracle db st =
        .ok ({ status := "escalated",
               message := "No valid image data provided for validation.",
               confidence := 0, reason := some "no_image" }, db) := by
      unfold image_guard_stage
      rw [if_neg (by simp [himg])]
    rcases hp : db.get_order_payment st.order_id with _ | p
    · simp only []
      exact himg2
    · simp only []
      rw [if_neg (hpok p hp)]
      exact himg2
  · intro o ho hcanc hpok himg
    unfold validate_refund_with_gemini
    simp only [noFaults]
    rw [ho]
    simp only []
    rw [if_neg hcanc]
    have himg2 : image_guard_stage noFaults oracle db st =
        .ok (gemini_stage noFaults oracle db st) := by
      unfold image_guard_stage
      rw [if_pos himg]
    rcases hp : db.get_order_payment st.order_id with _ | p
    · simp only []
      exact himg2
    · simp only []
      rw [if_neg (hpok p hp)]
      exact himg2

/-- Witness for C9 at the already-refunded guard: the prior refund date
appears in the message, for any oracle outcome. -/
theorem C9_guard_short_circuit_witness :
    validate_refund_with_gemini noFaults .parseError db1 stW =
      .ok ({ status := "escalated",
             message := "Order ORD007 was already refunded on 2024-02-01.",
             confidence := 0, reason := some "already_refunded" }, db1) :=
  (C9_guard_short_circuit db1 stW .parseError).2.2.1 ord7 pay7r (by decide) (by decide)
    (by decide) (by decide)

/-! ### Facts about the workflow nodes -/

/-- For non-refund intents, `fetch_order_node` is the identity. -/
theorem fetch_order_node_not_refund (f : Faults) (db : DB) (st : AgentState)
    (h : st.intent ≠ "REFUND_REQUEST") :
    fetch_order_node f db st = .ok (st, db) := by
  unfold fetch_order_node
  rw [if_neg h]

/-- When the message carries an order reference and the order exists, the
fetch stage fills `order_data` and defaults a falsy refund hint to the
order's total. -/
theorem fetch_order_found (db : DB) (st : AgentState) (oid : String) (o : Order)
    (hin : st.intent = "REFUND_REQUEST")
    (hext : extract_order_id st.message = some oid)
    (ho : db.get_order oid = some o) :
    fetch_order_node noFaults db st =
      .ok ({ st with
               order_id := some oid
               order_data := some o
               refund_amount := if pyFalsyAmount st.refund_amount then some o.total_amount
                                else st.refund_amount }, db) := by
  have hne : oid ≠ "" := extract_order_id_ne_empty hext
  unfold fetch_order_node
  rw [if_pos hin]
  simp only [noFaults, hext]
  rw [if_neg (by rintro ⟨h1, -⟩; exact absurd h1 (by simp))]
  simp only []
  rw [if_neg hne, ho]

/-- General contract of the fetch stage for refund intents with no prior
order data: either it escalates (with an escalation persisted, order data
still absent) or it finds the order and only rewrites the state. -/
theorem fetch_order_node_spec (db : DB) (st : AgentState)
    (hin : st.intent = "REFUND_REQUEST") (hod : st.order_data = none) :
    ∃ st' db', fetch_order_node noFaults db st = .ok (st', db') ∧
      st'.intent = st.intent ∧ st'.case_id = st.case_id ∧
      st'.customer_id = st.customer_id ∧ st'.message = st.message ∧
      st'.image_data = st.image_data ∧ st'.validation_result = st.validation_result ∧
      db'.wallet_writes = db.wallet_writes ∧
      (∃ delta, db'.escalations = db.escalations ++ delta) ∧
      ((st'.status = "escalated" ∧ st'.order_data = none ∧
          ∃ esc, esc ∈ db'.escalations ∧ esc.case_id = st.case_id ∧
            esc.customer_id = st.customer_id ∧ esc.status = "pending") ∨
       (st'.status = st.status ∧ st'.order_data.isSome ∧ db' = db)) := by
  unfold fetch_order_node
  rw [if_pos hin]
  simp only [noFaults]
  have closeNoOrd :
      ∀ dbx : DB, ∀ stx : AgentState,
        stx.intent = st.intent → stx.case_id = st.case_id →
        stx.customer_id = st.customer_id → stx.message = st.message →
        stx.image_data = st.image_data → stx.validation_result = st.validation_result →
        stx.status = "escalated" → stx.order_data = none →
        ∀ issue : String,
        dbx = db.add_escalation st.case_id st.customer_id issue →
        ∃ st' db', (Except.ok (stx, dbx) : Except (String × DB) (AgentState × DB)) =
            Except.ok (st', db') ∧
          st'.intent = st.intent ∧ st'.case_id = st.case_id ∧
          st'.customer_id = st.customer_id ∧ st'.message = st.message ∧
          st'.image_data = st.image_data ∧ st'.validation_result = st.validation_result ∧
          db'.wallet_writes = db.wallet_writes ∧
          (∃ delta, db'.escalations = db.escalations ++ delta) ∧
          ((st'.status = "escalated" ∧ st'.order_data = none ∧
              ∃ esc, esc ∈ db'.escalations ∧ esc.case_id = st.case_id ∧
                esc.customer_id = st.customer_id ∧ esc.status = "pending") ∨
           (st'.status = st.status ∧ st'.order_data.isSome ∧ db' = db)) := by
    intro dbx stx h1 h2 h3 h4 h5 h6 h7 h8 issue h9
    subst h9
    refine ⟨stx, _, rfl, h1, h2, h3, h4, h5, h6, by simp [DB.add_escalation],
      ⟨_, rfl⟩, Or.inl ⟨h7, h8, ?_⟩⟩
    exact ⟨{ case_id := st.case_id, customer_id := st.customer_id,
             issue_details := issue, status := "pending" },
           by simp [DB.add_escalation], rfl, rfl, rfl⟩
  by_cases hinf : extract_order_id st.message = none ∧ pyTruthyBytes st.image_data = true
  · rw [if_pos hinf]
    rcases hio : infer_order_id db st.customer_id with _ | oid
    · simp only []
      exact closeNoOrd _ _ rfl rfl rfl rfl rfl rfl rfl hod _ rfl
    · simp only []
      by_cases he : oid = ""
      · rw [if_pos he]
        exact closeNoOrd _ _ rfl rfl rfl rfl rfl rfl rfl hod _ rfl
      · rw [if_neg he]
        rcases hoo : db.get_order oid with _ | od
        · simp only []
          exact closeNoOrd _ _ rfl rfl rfl rfl rfl rfl rfl rfl _ rfl
        · simp only []
          exact ⟨_, _, rfl, rfl, rfl, rfl, rfl, rfl, rfl, rfl, ⟨[], by simp⟩,
            Or.inr ⟨rfl, by simp, rfl⟩⟩
  · rw [if_neg hinf]
    rcases hext : extract_order_id st.message with _ | oid
    · simp only []
      exact closeNoOrd _ _ rfl rfl rfl rfl rfl rfl rfl hod _ rfl
    · simp only []
      by_cases he : oid = ""
      · rw [if_pos he]
        exact closeNoOrd _ _ rfl rfl rfl rfl rfl rfl rfl hod _ rfl
      · rw [if_neg he]
        rcases hoo : db.get_order oid with _ | od
        · simp only []
          exact closeNoOrd _ _ rfl rfl rfl rfl rfl rfl rfl rfl _ rfl
        · simp only []
          exact ⟨_, _, rfl, rfl, rfl, rfl, rfl, rfl, rfl, rfl, ⟨[], by simp⟩,
            Or.inr ⟨rfl, by simp, rfl⟩⟩

/-- Projection lemma: `add_escalation` appends one pending record. -/
theorem add_escalation_escalations (db : DB) (a b c : String) :
    (db.add_escalation a b c).escalations =
      db.escalations ++
        [{ case_id := a, customer_id := b, issue_details := c, status := "pending" }] := rfl

/-- The record just inserted by `add_escalation` is in the store. -/
theorem mem_add_escalation (db : DB) (a b c : String) :
    ({ case_id := a, customer_id := b, issue_details := c, status := "pending" } :
      Escalation) ∈ (db.add_escalation a b c).escalations := by
  simp [DB.add_escalation]

theorem coerceStatus_cases (s : String) :
    coerceStatus s = "resolved" ∨ coerceStatus s = "escalated" := by
  unfold coerceStatus
  split
  case isTrue h => exact h
  case isFalse => exact Or.inr rfl

/-- The oracle stage never touches the escalation queue and always reports
`resolved` or `escalated`. -/
theorem gemini_stage_spec (f : Faults) (oracle : OracleOutcome) (db : DB) (st : AgentState) :
    (gemini_stage f oracle db st).2.escalations = db.escalations ∧
    ((gemini_stage f oracle db st).1.status = "resolved" ∨
     (gemini_stage f oracle db st).1.status = "escalated") := by
  unfold gemini_stage
  rcases oracle with e | _ | ⟨s, m, c, r⟩
  · exact ⟨rfl, Or.inr rfl⟩
  · exact ⟨rfl, Or.inr rfl⟩
  · simp only []
    by_cases hcond : coerceStatus s = "resolved" ∧ mkRat 7 10 ≤ clampConf c
    · rw [if_pos hcond]
      rcases f.getCustomer with _ | e
      · simp only []
        rcases db.get_customer st.customer_id with _ | customer
        · exact ⟨rfl, Or.inr rfl⟩
        · simp only []
          rcases st.refund_amount with _ | ra
          · exact ⟨rfl, Or.inr rfl⟩
          · simp only []
            rcases f.updateWallet with _ | e
            · exact ⟨rfl, Or.inl hcond.1⟩
            · exact ⟨rfl, Or.inr rfl⟩
      · exact ⟨rfl, Or.inr rfl⟩
    · rw [if_neg hcond]
      by_cases hlc : clampConf c < mkRat 7 10
      · rw [if_pos hlc]
        exact ⟨rfl, Or.inr rfl⟩
      · rw [if_neg hlc]
        refine ⟨rfl, ?_⟩
        rcases coerceStatus_cases s with h | h
        · exact absurd ⟨h, not_lt.mp hlc⟩ hcond
        · exact Or.inr h

/-- Under a fault-free store the validator always returns, never touches the
escalation queue, and reports `resolved` or `escalated`. -/
theorem validate_spec (oracle : OracleOutcome) (db : DB) (st : AgentState) :
    ∃ vr db1, validate_refund_with_gemini noFaults oracle db st = .ok (vr, db1) ∧
      db1.escalations = db.escalations ∧
      (vr.status = "resolved" ∨ vr.status = "escalated") := by
  unfold validate_refund_with_gemini
  simp only [noFaults]
  have hig : ∃ vr db1, image_guard_stage noFaults oracle db st = .ok (vr, db1) ∧
      db1.escalations = db.escalations ∧
      (vr.status = "resolved" ∨ vr.status = "escalated") := by
    unfold image_guard_stage
    by_cases hi : pyTruthyBytes st.image_data = true
    · rw [if_pos hi]
      obtain ⟨h1, h2⟩ := gemini_stage_spec noFaults oracle db st
      exact ⟨_, _, rfl, h1, h2⟩
    · rw [if_neg hi]
      exact ⟨_, _, rfl, rfl, Or.inr rfl⟩
  rcases ho : db.get_order_opt st.order_id with _ | o
  · exact ⟨_, _, rfl, rfl, Or.inr rfl⟩
  · simp only []
    by_cases hc : o.status = "cancelled"
    · rw [if_pos hc]
      exact ⟨_, _, rfl, rfl, Or.inr rfl⟩
    · rw [if_neg hc]
      rcases hp : db.get_order_payment st.order_id with _ | p
      · simp only []
        exact hig
      · simp only []
        by_cases hpr : p.status = "refunded"
        · rw [if_pos hpr]
          exact ⟨_, _, rfl, rfl, Or.inr rfl⟩
        · rw [if_neg hpr]
          exact hig

/-- Refund decision with order data but no usable image: `pending_image`,
store untouched. -/
theorem refund_decision_pending (f : Faults) (oracle : OracleOutcome) (db : DB)
    (st : AgentState)
    (hin : st.intent = "REFUND_REQUEST") (hod : st.order_data.isSome = true)
    (hi : pyTruthyBytes st.image_data = false) :
    refund_decision_node f oracle db st =
      .ok ({ st with
               status := "pending_image"
               response := "Please upload an image of the damaged item for order " ++
                 pyOptStr st.order_id ++ " to process your refund." }, db) := by
  unfold refund_decision_node
  rw [if_pos ⟨hin, hod⟩, if_neg (by simp [hi])]

/-- Refund decision with an image: the validator's verdict becomes the
state, and an `escalated` verdict persists an escalation. -/
theorem refund_decision_validated (oracle : OracleOutcome) (db : DB) (st : AgentState)
    (vr : ValidationResult) (db1 : DB)
    (hin : st.intent = "REFUND_REQUEST") (hod : st.order_data.isSome = true)
    (hi : pyTruthyBytes st.image_data = true)
    (hv : validate_refund_with_gemini noFaults oracle db st = .ok (vr, db1)) :
    refund_decision_node noFaults oracle db st =
      (if vr.status = "escalated" then
        .ok ({ st with validation_result := some vr, status := vr.status, response := vr.message },
             db1.add_escalation st.case_id st.customer_id
               (escalation_details_text
                 { st with
                     validation_result := some vr
                     status := vr.status
                     response := vr.message } vr))
      else
        .ok ({ st with
                 validation_result := some vr
                 status := vr.status
                 response := vr.message }, db1)) := by
  unfold refund_decision_node
  rw [if_pos ⟨hin, hod⟩, if_pos hi, hv]
  simp only [noFaults]

/-- Contract of the refund-decision stage under a fault-free store. -/
theorem refund_decision_node_spec (oracle : OracleOutcome) (db : DB) (st : AgentState)
    (hin : st.intent = "REFUND_REQUEST") (hod : st.order_data.isSome = true) :
    ∃ st' db', refund_decision_node noFaults oracle db st = .ok (st', db') ∧
      st'.case_id = st.case_id ∧ st'.customer_id = st.customer_id ∧
      (∃ delta, db'.escalations = db.escalations ++ delta) ∧
      (st'.status = "pending_image" ∨ st'.status = "resolved" ∨
        (st'.status = "escalated" ∧ ∃ esc, esc ∈ db'.escalations ∧ esc.case_id = st.case_id ∧
          esc.customer_id = st.customer_id ∧ esc.status = "pending")) := by
  by_cases hi : pyTruthyBytes st.image_data = true
  · obtain ⟨vr, db1, hv, hesc, hstat⟩ := validate_spec oracle db st
    rw [refund_decision_validated oracle db st vr db1 hin hod hi hv]
    by_cases he : vr.status = "escalated"
    · rw [if_pos he]
      refine ⟨_, _, rfl, rfl, rfl, ⟨_, by rw [add_escalation_escalations, hesc]⟩,
        Or.inr (Or.inr ⟨he, ?_⟩)⟩
      exact ⟨_, mem_add_escalation db1 _ _ _, rfl, rfl, rfl⟩
    · rw [if_neg he]
      refine ⟨_, _, rfl, rfl, rfl, ⟨[], by simp [hesc]⟩, ?_⟩
      rcases hstat with h | h
      · exact Or.inr (Or.inl h)
      · exact absurd h he
  · have hi2 : pyTruthyBytes st.image_data = false := by
      cases hpy : pyTruthyBytes st.image_data
      · rfl
      · exact absurd hpy hi
    rw [refund_decision_pending noFaults oracle db st hin hod hi2]
    exact ⟨_, _, rfl, rfl, rfl, ⟨[], by simp⟩, Or.inl rfl⟩

/-- Contract of the other-intents stage under a fault-free store. -/
theorem handle_other_intents_node_spec (db : DB) (st : AgentState)
    (hin : st.intent ≠ "REFUND_REQUEST") :
    ∃ st' db', handle_other_intents_node noFaults db st = .ok (st', db') ∧
      st'.case_id = st.case_id ∧ st'.customer_id = st.customer_id ∧
      db'.wallet_writes = db.wallet_writes ∧
      (∃ delta, db'.escalations = db.escalations ++ delta) ∧
      (st'.status = "error" ∨ st'.status = "resolved" ∨
        (st'.status = "escalated" ∧ ∃ esc, esc ∈ db'.escalations ∧ esc.case_id = st.case_id ∧
          esc.customer_id = st.customer_id ∧ esc.status = "pending") ∨
        (st' = st ∧ db' = db ∧ (st.intent = "DELIVERY_ISSUE" ∨ st.intent = "ORDER_STATUS") ∧
          extract_order_id st.message = none)) := by
  unfold handle_other_intents_node
  rw [if_pos hin]
  simp only [noFaults]
  rcases hc : db.get_customer st.customer_id with _ | customer
  · exact ⟨_, _, rfl, rfl, rfl, rfl, ⟨[], by simp⟩, Or.inl rfl⟩
  · simp only []
    by_cases hw : st.intent = "WALLET_ISSUE"
    · rw [if_pos hw]
      by_cases hfp : (db.get_failed_payments st.customer_id).isEmpty = true
      · rw [if_pos hfp]
        exact ⟨_, _, rfl, rfl, rfl, rfl, ⟨[], by simp⟩, Or.inr (Or.inl rfl)⟩
      · rw [if_neg hfp]
        refine ⟨_, _, rfl, rfl, rfl, rfl, ⟨_, rfl⟩,
          Or.inr (Or.inr (Or.inl ⟨rfl, ?_⟩))⟩
        exact ⟨{ case_id := st.case_id, customer_id := st.customer_id,
                 issue_details := st.message, status := "pending" },
               by simp [DB.add_escalation], rfl, rfl, rfl⟩
    · rw [if_neg hw]
      by_cases hd : st.intent = "DELIVERY_ISSUE"
      · rw [if_pos hd]
        rcases hext : extract_order_id st.message with _ | oid
        · simp only []
          exact ⟨_, _, rfl, rfl, rfl, rfl, ⟨[], by simp⟩,
            Or.inr (Or.inr (Or.inr ⟨rfl, rfl, Or.inl hd, by trivial⟩))⟩
        · simp only []
          rcases ho : db.get_order oid with _ | o
          · simp only []
            refine ⟨_, _, rfl, rfl, rfl, rfl, ⟨_, rfl⟩,
              Or.inr (Or.inr (Or.inl ⟨rfl, ?_⟩))⟩
            exact ⟨{ case_id := st.case_id, customer_id := st.customer_id,
                     issue_details := st.message, status := "pending" },
                   by simp [DB.add_escalation], rfl, rfl, rfl⟩
          · simp only []
            exact ⟨_, _, rfl, rfl, rfl, rfl, ⟨[], by simp⟩, Or.inr (Or.inl rfl)⟩
      · rw [if_neg hd]
        by_cases hp : st.intent = "PAYMENT_PROBLEM"
        · rw [if_pos hp]
          by_cases hfp : (db.get_failed_payments st.customer_id).isEmpty = true
          · rw [if_pos hfp]
            exact ⟨_, _, rfl, rfl, rfl, rfl, ⟨[], by simp⟩, Or.inr (Or.inl rfl)⟩
          · rw [if_neg hfp]
            refine ⟨_, _, rfl, rfl, rfl, rfl, ⟨_, rfl⟩,
              Or.inr (Or.inr (Or.inl ⟨rfl, ?_⟩))⟩
            exact ⟨{ case_id := st.case_id, customer_id := st.customer_id,
                     issue_details := st.message, status := "pending" },
                   by simp [DB.add_escalation], rfl, rfl, rfl⟩
        · rw [if_neg hp]
          by_cases hos : st.intent = "ORDER_STATUS"
          · rw [if_pos hos]
            rcases hext : extract_order_id st.message with _ | oid
            · simp only []
              exact ⟨_, _, rfl, rfl, rfl, rfl, ⟨[], by simp⟩,
                Or.inr (Or.inr (Or.inr ⟨rfl, rfl, Or.inr hos, by trivial⟩))⟩
            · simp only []
              rcases ho : db.get_order oid with _ | o
              · simp only []
                refine ⟨_, _, rfl, rfl, rfl, rfl, ⟨_, rfl⟩,
                  Or.inr (Or.inr (Or.inl ⟨rfl, ?_⟩))⟩
                exact ⟨{ case_id := st.case_id, customer_id := st.customer_id,
                         issue_details := st.message, status := "pending" },
                       by simp [DB.add_escalation], rfl, rfl, rfl⟩
              · simp only []
                exact ⟨_, _, rfl, rfl, rfl, rfl, ⟨[], by simp⟩, Or.inr (Or.inl rfl)⟩
          · rw [if_neg hos]
            refine ⟨_, _, rfl, rfl, rfl, rfl, ⟨_, rfl⟩,
              Or.inr (Or.inr (Or.inl ⟨rfl, ?_⟩))⟩
            exact ⟨{ case_id := st.case_id, customer_id := st.customer_id,
                     issue_details := st.message, status := "pending" },
                   by simp [DB.add_escalation], rfl, rfl, rfl⟩

/-- Master contract of `process_request` under a fault-free store: it always
answers, only appends escalations, lands in the closed status set except for
the `pending` leak of `DELIVERY_ISSUE`/`ORDER_STATUS` with no extractable
order id, and an `escalated` answer always has a matching escalation
persisted. -/
theorem process_request_spec (oracle : OracleOutcome) (db : DB)
    (intent message customer_id case_id : String)
    (img : Option (List Nat)) (ra : Option ℚ) :
    ∃ r db', process_request noFaults oracle db intent message customer_id case_id img ra =
        .ok (r, db') ∧
      r.case_id = some case_id ∧
      (∃ delta, db'.escalations = db.escalations ++ delta) ∧
      (r.status = "resolved" ∨ r.status = "escalated" ∨ r.status = "pending_image" ∨
       r.status = "error" ∨
       (r.status = "pending" ∧ (intent = "DELIVERY_ISSUE" ∨ intent = "ORDER_STATUS") ∧
         extract_order_id message = none)) ∧
      (r.status = "escalated" → ∃ esc, esc ∈ db'.escalations ∧ esc.case_id = case_id ∧
        esc.customer_id = customer_id ∧ esc.status = "pending") := by
  unfold process_request run_workflow
  by_cases hin : intent = "REFUND_REQUEST"
  · obtain ⟨st1, db1, hf, hi1, hc1, hcu1, hm1, him1, hvr1, hw1, ⟨d1, hd1⟩, hcase⟩ :=
      fetch_order_node_spec db (initial_state intent message customer_id case_id img ra)
        (by simpa [initial_state] using hin) rfl
    rw [hf]
    simp only []
    have hi1' : st1.intent = "REFUND_REQUEST" := by
      rw [hi1]; simpa [initial_state] using hin
    have hc1' : st1.case_id = case_id := hc1
    have hcu1' : st1.customer_id = customer_id := hcu1
    rcases hcase with ⟨hstat, hod2, esc1, hmem1, he1, he2, he3⟩ | ⟨hstat, hod2, hdbeq⟩
    · have hspr : should_process_refund st1 = "END" := by
        unfold should_process_refund
        rw [if_neg (by simp [hi1']), if_pos hstat]
      rw [hspr]
      rw [if_neg (by decide), if_neg (by decide)]
      simp only []
      refine ⟨_, _, rfl, by rw [hc1'], ⟨d1, hd1⟩, Or.inr (Or.inl hstat), ?_⟩
      intro _
      exact ⟨esc1, hmem1, he1, he2, he3⟩
    · have hspr : should_process_refund st1 = "refund_decision" := by
        unfold should_process_refund
        rw [if_neg (by simp [hi1'])]
        rw [if_neg (by rw [hstat]; simp [initial_state])]
        rw [if_neg (by simp [hod2])]
      rw [hspr, if_pos rfl]
      obtain ⟨st2, db2, hrd, hc2, hcu2, ⟨d2, hd2⟩, hcase2⟩ :=
        refund_decision_node_spec oracle db1 st1 hi1' hod2
      rw [hrd]
      simp only []
      refine ⟨_, _, rfl, by rw [hc2, hc1'], ⟨d2, by rw [hd2, hdbeq]⟩, ?_, ?_⟩
      · rcases hcase2 with h | h | ⟨h, -⟩
        · exact Or.inr (Or.inr (Or.inl h))
        · exact Or.inl h
        · exact Or.inr (Or.inl h)
      · intro hesc
        have hesc2 : st2.status = "escalated" := hesc
        rcases hcase2 with h | h | ⟨h, esc, hmem, h1, h2, h3⟩
        · rw [h] at hesc2
          exact absurd hesc2 (by decide)
        · rw [h] at hesc2
          exact absurd hesc2 (by decide)
        · exact ⟨esc, hmem, by rw [h1, hc1'], by rw [h2, hcu1'], h3⟩
  · rw [fetch_order_node_not_refund noFaults db _ (by simpa [initial_state] using hin)]
    simp only []
    have hspr : should_process_refund
        (initial_state intent message customer_id case_id img ra) = "handle_other_intents" := by
      unfold should_process_refund
      rw [if_pos (by simpa [initial_state] using hin)]
    rw [hspr, if_neg (by decide), if_pos rfl]
    obtain ⟨st2, db2, hh, hc2, hcu2, hw2, ⟨d2, hd2⟩, hcase2⟩ :=
      handle_other_intents_node_spec db
        (initial_state intent message customer_id case_id img ra)
        (by simpa [initial_state] using hin)
    rw [hh]
    simp only []
    refine ⟨_, _, rfl, by rw [hc2]; rfl, ⟨d2, hd2⟩, ?_, ?_⟩
    · rcases hcase2 with h | h | ⟨h, -⟩ | ⟨hsteq, -, hint, hext⟩
      · exact Or.inr (Or.inr (Or.inr (Or.inl h)))
      · exact Or.inl h
      · exact Or.inr (Or.inl h)
      · exact Or.inr (Or.inr (Or.inr (Or.inr ⟨by rw [hsteq]; rfl, hint, hext⟩)))
    · intro hesc
      have hesc2 : st2.status = "escalated" := hesc
      rcases hcase2 with h | h | ⟨h, esc, hmem, h1, h2, h3⟩ | ⟨hsteq, -, -, -⟩
      · exact absurd (h.symm.trans hesc2) (by decide)
      · exact absurd (h.symm.trans hesc2) (by decide)
      · exact ⟨esc, hmem, h1, h2, h3⟩
      · rw [hsteq] at hesc2
        exact absurd hesc2 (by simp [initial_state])

/-- C2 (counterexample): a `DELIVERY_ISSUE` request whose message carries no
order reference leaves the workflow with the initial placeholder status
`pending`, which is not a terminal status — refuting the claim that every
execution exits in exactly one terminal status. -/
theorem C2_counterexample :
    process_request noFaults .parseError db0 "DELIVERY_ISSUE" "where is my delivery"
        "C1" "K2" none none =
      .ok ({ status := "pending", message := "Processing your request...",
             case_id := some "K2", order_id := none, validation_details := none,
             error := none }, db0) ∧
    ("pending" ≠ "resolved" ∧ "pending" ≠ "escalated" ∧
     "pending" ≠ "pending_image" ∧ "pending" ≠ "error") := by
  exact ⟨by decide, by decide⟩

/-- C2 (amended): every fault-free execution returns a single status that is
terminal except when the intent is `DELIVERY_ISSUE` or `ORDER_STATUS` and no
order reference is extractable from the message (then the placeholder
`pending` is returned); whenever the returned status is `escalated`, an
escalation carrying the state's case identifier has been persisted before
`process_request` returns. -/
theorem C2_amended_escalation_invariant (oracle : OracleOutcome) (db : DB)
    (intent message customer_id case_id : String)
    (img : Option (List Nat)) (ra : Option ℚ) :
    ∃ r db', process_request noFaults oracle db intent message customer_id case_id img ra =
        .ok (r, db') ∧
      (r.status = "resolved" ∨ r.status = "escalated" ∨ r.status = "pending_image" ∨
       r.status = "error" ∨
       (r.status = "pending" ∧ (intent = "DELIVERY_ISSUE" ∨ intent = "ORDER_STATUS") ∧
         extract_order_id message = none)) ∧
      (r.status = "escalated" → ∃ esc, esc ∈ db'.escalations ∧ esc.case_id = case_id ∧
        esc.customer_id = customer_id ∧ esc.status = "pending") := by
  obtain ⟨r, db', h1, -, -, h4, h5⟩ :=
    process_request_spec oracle db intent message customer_id case_id img ra
  exact ⟨r, db', h1, h4, h5⟩

/-- Witness for C2 (amended) at a concrete escalating run. -/
theorem C2_amended_escalation_invariant_witness :
    ∃ r db', process_request noFaults .parseError db0 "UNKNOWN_INTENT" "hello"
        "C1" "K7" none none = .ok (r, db') ∧
      (r.status = "resolved" ∨ r.status = "escalated" ∨ r.status = "pending_image" ∨
       r.status = "error" ∨
       (r.status = "pending" ∧ ("UNKNOWN_INTENT" = "DELIVERY_ISSUE" ∨
         "UNKNOWN_INTENT" = "ORDER_STATUS") ∧ extract_order_id "hello" = none)) ∧
      (r.status = "escalated" → ∃ esc, esc ∈ db'.escalations ∧ esc.case_id = "K7" ∧
        esc.customer_id = "C1" ∧ esc.status = "pending") :=
  C2_amended_escalation_invariant .parseError db0 "UNKNOWN_INTENT" "hello" "C1" "K7" none none

/-- C5 (counterexample): when the store's `add_escalation` itself raises,
the exception raised during stage execution reaches the top-level handler,
whose own escalation insert raises again — and `process_request` propagates
the exception to its caller, refuting "never propagates". -/
theorem C5_counterexample :
    process_request
      { getCustomer := none, getOrder := none, getOrderPayment := none,
        getCustomerOrders := none, getFailedPayments := none,
        updateWallet := none, addEscalation := some "store down" }
      .parseError db0 "REFUND_REQUEST" "please refund me" "C1" "K4" none none =
      .error ("store down", db0) := by
  decide

/-- C5 (amended): provided the store's `add_escalation` does not itself
fail, `process_request` never propagates an exception: any error escaping
the workflow stages is converted by the top-level handler into a persisted
escalation whose issue detail embeds the exception text, and an `escalated`
answer with the generic technical-error message. -/
theorem C5_amended_top_level_catch (f : Faults) (oracle : OracleOutcome) (db : DB)
    (intent message customer_id case_id : String)
    (img : Option (List Nat)) (ra : Option ℚ)
    (hf : f.addEscalation = none) :
    (∃ r db', process_request f oracle db intent message customer_id case_id img ra =
      .ok (r, db')) ∧
    (∀ e dbe,
      run_workflow f oracle db (initial_state intent message customer_id case_id img ra) =
        .error (e, dbe) →
      process_request f oracle db intent message customer_id case_id img ra =
        .ok ({ status := "escalated",
               message := "We encountered a technical issue processing your request. It has been escalated for manual review.",
               case_id := some case_id, order_id := none, validation_details := none,
               error := some e },
             dbe.add_escalation case_id customer_id
               ("Workflow error: " ++ e ++ ". Original message: " ++ message))) := by
  constructor
  · unfold process_request
    rcases hr : run_workflow f oracle db
        (initial_state intent message customer_id case_id img ra) with ⟨e1, dbe1⟩ | ⟨st1, dbx1⟩
    · simp only []
      rw [hf]
      exact ⟨_, _, rfl⟩
    · simp only []
      exact ⟨_, _, rfl⟩
  · intro e dbe hr
    unfold process_request
    rw [hr]
    simp only []
    rw [hf]

/-- Witness for C5 (amended): a fault-free run returns without raising. -/
theorem C5_amended_top_level_catch_witness :
    ∃ r db', process_request noFaults .parseError db0 "WALLET_ISSUE" "my wallet looks off"
      "C1" "K5" none none = .ok (r, db') :=
  (C5_amended_top_level_catch noFaults .parseError db0 "WALLET_ISSUE" "my wallet looks off"
    "C1" "K5" none none rfl).1

/-- C6 (counterexample): an `ORDER_STATUS` request without an extractable
order reference returns the placeholder status `pending`, which lies outside
the claimed closed set. -/
theorem C6_counterexample :
    process_request noFaults .parseError db0 "ORDER_STATUS" "what about my order"
        "C1" "K3" none none =
      .ok ({ status := "pending", message := "Processing your request...",
             case_id := some "K3", order_id := none, validation_details := none,
             error := none }, db0) ∧
    ¬("pending" = "resolved" ∨ "pending" = "escalated" ∨
      "pending" = "pending_image" ∨ "pending" = "error") := by
  exact ⟨by decide, by decide⟩

/-- C6 (amended): the returned status always lies in the closed set
`{resolved, escalated, pending_image, error}` except that intents
`DELIVERY_ISSUE` and `ORDER_STATUS` with no extractable order reference
return the placeholder `pending`; the result is always a returned value
carrying a textual message (the `message` field), never a raised
exception. -/
theorem C6_amended_status_closed_set (oracle : OracleOutcome) (db : DB)
    (intent message customer_id case_id : String)
    (img : Option (List Nat)) (ra : Option ℚ) :
    ∃ r db', process_request noFaults oracle db intent message customer_id case_id img ra =
        .ok (r, db') ∧
      (r.status = "resolved" ∨ r.status = "escalated" ∨ r.status = "pending_image" ∨
       r.status = "error" ∨
       (r.status = "pending" ∧ (intent = "DELIVERY_ISSUE" ∨ intent = "ORDER_STATUS") ∧
         extract_order_id message = none)) := by
  obtain ⟨r, db', h1, -, -, h4, -⟩ :=
    process_request_spec oracle db intent message customer_id case_id img ra
  exact ⟨r, db', h1, h4⟩

/-- Witness for C6 (amended) at a concrete resolved run. -/
theorem C6_amended_status_closed_set_witness :
    ∃ r db', process_request noFaults .parseError db0 "PAYMENT_PROBLEM" "card failed"
        "C1" "K8" none none = .ok (r, db') ∧
      (r.status = "resolved" ∨ r.status = "escalated" ∨ r.status = "pending_image" ∨
       r.status = "error" ∨
       (r.status = "pending" ∧ ("PAYMENT_PROBLEM" = "DELIVERY_ISSUE" ∨
         "PAYMENT_PROBLEM" = "ORDER_STATUS") ∧ extract_order_id "card failed" = none)) :=
  C6_amended_status_closed_set .parseError db0 "PAYMENT_PROBLEM" "card failed" "C1" "K8" none none

/-- Routing check: a non-escalated refund state with order data goes to the
refund decision. -/
theorem should_process_refund_of_found (st : AgentState)
    (hin : st.intent = "REFUND_REQUEST") (hst : st.status ≠ "escalated")
    (hod : st.order_data.isSome = true) :
    should_process_refund st = "refund_decision" := by
  unfold should_process_refund
  rw [if_neg (by simp [hin]), if_neg hst, if_neg (by simp [hod])]

/-- When all four guards pass, the validator is exactly the oracle stage. -/
theorem validate_runs_oracle (oracle : OracleOutcome) (db : DB) (st : AgentState) (o : Order)
    (ho : db.get_order_opt st.order_id = some o)
    (hcanc : o.status ≠ "cancelled")
    (hpay : ∀ p, db.get_order_payment st.order_id = some p → p.status ≠ "refunded")
    (himg : pyTruthyBytes st.image_data = true) :
    validate_refund_with_gemini noFaults oracle db st =
      .ok (gemini_stage noFaults oracle db st) := by
  unfold validate_refund_with_gemini
  simp only [noFaults]
  rw [ho]
  simp only []
  rw [if_neg hcanc]
  have himg2 : image_guard_stage noFaults oracle db st =
      .ok (gemini_stage noFaults oracle db st) := by
    unfold image_guard_stage
    rw [if_pos himg]
  rcases hp : db.get_order_payment st.order_id with _ | p
  · simp only []
    exact himg2
  · simp only []
    rw [if_neg (hpay p hp)]
    exact himg2

/-- C3 (counterexample): a refund request with neither an image nor an
extractable order reference terminates `escalated` (not `pending_image`)
and does create an escalation record. -/
theorem C3_counterexample :
    process_request noFaults .parseError db0 "REFUND_REQUEST" "I want a refund"
        "C1" "K6" none none =
      .ok ({ status := "escalated",
             message := "Please provide a valid order ID (e.g., ORD001) for your refund request.",
             case_id := some "K6", order_id := none, validation_details := none,
             error := none },
           db0.add_escalation "K6" "C1" "No order ID provided: I want a refund") ∧
    "escalated" ≠ "pending_image" := by
  exact ⟨by decide, by decide⟩

/-- C3 (amended): for a refund request without usable image bytes the wallet
is never mutated; and when an order reference is extracted from the message
and the order exists, the run terminates `pending_image` with the upload
prompt, persisting nothing.  (Without a resolvable order the run escalates
and does persist an escalation.) -/
theorem C3_amended_pending_image (oracle : OracleOutcome) (db : DB)
    (message customer_id case_id : String) (img : Option (List Nat)) (ra : Option ℚ)
    (himg : pyTruthyBytes img = false) :
    (∀ r db', process_request noFaults oracle db "REFUND_REQUEST" message customer_id case_id
        img ra = .ok (r, db') → db'.wallet_writes = db.wallet_writes) ∧
    (∀ oid o, extract_order_id message = some oid → db.get_order oid = some o →
      process_request noFaults oracle db "REFUND_REQUEST" message customer_id case_id img ra =
        .ok ({ status := "pending_image",
               message := "Please upload an image of the damaged item for order " ++ oid ++
                 " to process your refund.",
               case_id := some case_id, order_id := some oid,
               validation_details := none, error := none }, db)) := by
  constructor
  · intro r db' hrun
    obtain ⟨st1, db1, hf, hi1, hc1, hcu1, hm1, him1, hvr1, hw1, ⟨d1, hd1⟩, hcase⟩ :=
      fetch_order_node_spec db
        (initial_state "REFUND_REQUEST" message customer_id case_id img ra) rfl rfl
    unfold process_request run_workflow at hrun
    rw [hf] at hrun
    simp only [] at hrun
    have hi1' : st1.intent = "REFUND_REQUEST" := by rw [hi1]; rfl
    rcases hcase with ⟨hstat, -, -⟩ | ⟨hstat, hod2, hdbeq⟩
    · have hspr : should_process_refund st1 = "END" := by
        unfold should_process_refund
        rw [if_neg (by simp [hi1']), if_pos hstat]
      rw [hspr] at hrun
      rw [if_neg (by decide), if_neg (by decide)] at hrun
      simp only [Except.ok.injEq, Prod.mk.injEq] at hrun
      rw [← hrun.2]
      exact hw1
    · have hspr : should_process_refund st1 = "refund_decision" := by
        apply should_process_refund_of_found st1 hi1' _ hod2
        rw [hstat]
        simp [initial_state]
      rw [hspr, if_pos rfl] at hrun
      have himg1 : pyTruthyBytes st1.image_data = false := by rw [him1]; exact himg
      rw [refund_decision_pending noFaults oracle db1 st1 hi1' hod2 himg1] at hrun
      simp only [Except.ok.injEq, Prod.mk.injEq] at hrun
      rw [← hrun.2, hdbeq]
  · intro oid o hext ho
    have hfound := fetch_order_found db
      (initial_state "REFUND_REQUEST" message customer_id case_id img ra) oid o rfl hext ho
    rcases hfe : fetch_order_node noFaults db
        (initial_state "REFUND_REQUEST" message customer_id case_id img ra) with er | ⟨st1, db1⟩
    · rw [hfe] at hfound
      exact absurd hfound (by simp)
    · rw [hfe] at hfound
      simp only [Except.ok.injEq, Prod.mk.injEq] at hfound
      obtain ⟨hst1, hdb1⟩ := hfound
      have h1 : st1.intent = "REFUND_REQUEST" := by rw [hst1] <;> try rfl
      have h2 : st1.order_data.isSome = true := by rw [hst1] <;> try rfl
      have h3 : pyTruthyBytes st1.image_data = false := by
        rw [hst1] <;> try exact himg
      have h4 : st1.order_id = some oid := by rw [hst1] <;> try rfl
      have h5 : st1.case_id = case_id := by rw [hst1] <;> try rfl
      have h6 : st1.validation_result = none := by rw [hst1] <;> try rfl
      have h7 : st1.status = "pending" := by rw [hst1] <;> try rfl
      subst db1
      unfold process_request run_workflow
      rw [hfe]
      simp only []
      rw [should_process_refund_of_found st1 h1 (by rw [h7]; decide) h2, if_pos rfl]
      rw [refund_decision_pending noFaults oracle db st1 h1 h2 h3]
      simp only []
      rw [h4, h5, h6]
      rfl

/-- Witness for C3 (amended) at the concrete order `ORD007`. -/
theorem C3_amended_pending_image_witness :
    process_request noFaults .parseError db0 "REFUND_REQUEST" "refund ORD007 please"
        "C1" "K11" none none =
      .ok ({ status := "pending_image",
             message := "Please upload an image of the damaged item for order ORD007 to process your refund.",
             case_id := some "K11", order_id := some "ORD007",
             validation_details := none, error := none }, db0) :=
  (C3_amended_pending_image .parseError db0 "refund ORD007 please" "C1" "K11" none none
    rfl).2 "ORD007" ord7 (by decide) (by decide)

/-- C4: a successfully parsed oracle reply with confidence below 0.7 always
ends `escalated` — whatever status the oracle reported — and the message
names the (two-decimal formatted) confidence value; an escalation carrying
the case id is persisted. -/
theorem C4_low_confidence_escalates (db : DB)
    (s m message customer_id case_id : String) (c : ℚ) (rsn : Option String)
    (img : Option (List Nat)) (ra : Option ℚ) (oid : String) (o : Order)
    (hext : extract_order_id message = some oid)
    (ho : db.get_order oid = some o)
    (hcanc : o.status ≠ "cancelled")
    (hpay : ∀ p, find_payment_by_order db.payments oid = some p → p.status ≠ "refunded")
    (himg : pyTruthyBytes img = true)
    (hc0 : 0 ≤ c) (hcc : c < mkRat 7 10) :
    ∃ r db', process_request noFaults (.parsed s m c rsn) db "REFUND_REQUEST" message
        customer_id case_id img ra = .ok (r, db') ∧
      r.status = "escalated" ∧
      r.message = "Image analysis inconclusive (confidence: " ++ fmt2 c ++
        "). Escalated for human review." ∧
      (∃ esc, esc ∈ db'.escalations ∧ esc.case_id = case_id ∧ esc.status = "pending") := by
  have hle1 : mkRat 7 10 ≤ 1 := by
    rw [mkRat_seven_ten]
    norm_num
  have hclamp : clampConf c = c := clampConf_of_bounds hc0 (le_trans hcc.le hle1)
  have hfound := fetch_order_found db
    (initial_state "REFUND_REQUEST" message customer_id case_id img ra) oid o rfl hext ho
  rcases hfe : fetch_order_node noFaults db
      (initial_state "REFUND_REQUEST" message customer_id case_id img ra) with er | ⟨st1, db1⟩
  · rw [hfe] at hfound
    exact absurd hfound (by simp)
  · rw [hfe] at hfound
    simp only [Except.ok.injEq, Prod.mk.injEq] at hfound
    obtain ⟨hst1, hdb1⟩ := hfound
    have h1 : st1.intent = "REFUND_REQUEST" := by rw [hst1] <;> try rfl
    have h2 : st1.order_data.isSome = true := by rw [hst1] <;> try rfl
    have h3 : pyTruthyBytes st1.image_data = true := by
      rw [hst1] <;> try exact himg
    have h4 : st1.order_id = some oid := by rw [hst1] <;> try rfl
    have h5 : st1.case_id = case_id := by rw [hst1] <;> try rfl
    have h7 : st1.status = "pending" := by rw [hst1] <;> try rfl
    subst db1
    have hoopt : db.get_order_opt st1.order_id = some o := by
      rw [h4]
      exact ho
    have hpay2 : ∀ p, db.get_order_payment st1.order_id = some p → p.status ≠ "refunded" := by
      intro p hp
      rw [h4] at hp
      exact hpay p hp
    have hval := validate_runs_oracle (.parsed s m c rsn) db st1 o hoopt hcanc hpay2 h3
    have hlow := gemini_stage_low_confidence noFaults db st1 s m c rsn (by rw [hclamp]; exact hcc)
    rw [hlow] at hval
    have hrd := refund_decision_validated (.parsed s m c rsn) db st1 _ _ h1 h2 h3 hval
    rw [if_pos rfl] at hrd
    unfold process_request run_workflow
    rw [hfe]
    simp only []
    rw [should_process_refund_of_found st1 h1 (by rw [h7]; decide) h2, if_pos rfl]
    rw [hrd]
    simp only []
    refine ⟨_, _, rfl, rfl, by rw [hclamp], ?_⟩
    refine ⟨_, mem_add_escalation db _ _ _, ?_, rfl⟩
    exact h5

/-- Witness for C4 at confidence 0.4 with an oracle-reported `resolved`. -/
theorem C4_low_confidence_escalates_witness :
    ∃ r db', process_request noFaults (.parsed "resolved" "looks damaged" (mkRat 2 5) none)
        db0 "REFUND_REQUEST" "refund ORD007" "C1" "K12" (some [1]) none = .ok (r, db') ∧
      r.status = "escalated" ∧
      r.message = "Image analysis inconclusive (confidence: " ++ fmt2 (mkRat 2 5) ++
        "). Escalated for human review." ∧
      (∃ esc, esc ∈ db'.escalations ∧ esc.case_id = "K12" ∧ esc.status = "pending") :=
  C4_low_confidence_escalates db0 "resolved" "looks damaged" "refund ORD007" "C1" "K12"
    (mkRat 2 5) none (some [1]) none "ORD007" ord7
    (by decide) (by decide) (by decide)
    (by
      intro p hp
      have hfp : find_payment_by_order db0.payments "ORD007" = some pay7 := by decide
      rw [hfp] at hp
      injection hp with hp
      rw [← hp]
      decide)
    (by decide) (by decide) (by decide)

/-- C7: for a refund request with no order reference in the message and an
image attached, the resulting order id is the head of the customer's
delivered orders sorted by order-date string descending, and that head is a
delivered order of the customer whose stored date string is
lexicographically maximal among the customer's delivered orders. -/
theorem C7_inferred_order (db : DB) (st : AgentState)
    (hin : st.intent = "REFUND_REQUEST")
    (hext : extract_order_id st.message = none)
    (himg : pyTruthyBytes st.image_data = true) :
    (∀ st' db', fetch_order_node noFaults db st = .ok (st', db') →
      st'.order_id = ((pySortDescBy (fun o => o.order_date)
          ((db.get_customer_orders st.customer_id).filter
            (fun o => o.status = "delivered"))).head?).map (fun o => o.order_id)) ∧
    (∀ o, ((pySortDescBy (fun o => o.order_date)
          ((db.get_customer_orders st.customer_id).filter
            (fun o => o.status = "delivered"))).head?) = some o →
      o ∈ db.get_customer_orders st.customer_id ∧ o.customer_id = st.customer_id ∧
      o.status = "delivered" ∧
      ∀ o2, o2 ∈ db.get_customer_orders st.customer_id → o2.status = "delivered" →
        o2.order_date ≤ o.order_date) := by
  constructor
  · intro st' db' h
    rw [show ((pySortDescBy (fun o => o.order_date)
        ((db.get_customer_orders st.customer_id).filter
          (fun o => o.status = "delivered"))).head?).map (fun o => o.order_id) =
        infer_order_id db st.customer_id from rfl]
    unfold fetch_order_node at h
    rw [if_pos hin] at h
    simp only [noFaults] at h
    rw [if_pos ⟨hext, himg⟩] at h
    generalize hgen : infer_order_id db st.customer_id = oidI at h ⊢
    rcases oidI with _ | oid
    · simp only [] at h
      simp only [Except.ok.injEq, Prod.mk.injEq] at h
      rw [← h.1]
    · simp only [] at h
      by_cases he : oid = ""
      · rw [if_pos he] at h
        simp only [Except.ok.injEq, Prod.mk.injEq] at h
        rw [← h.1]
      · rw [if_neg he] at h
        rcases hoo : db.get_order oid with _ | od
        · rw [hoo] at h
          simp only [] at h
          simp only [Except.ok.injEq, Prod.mk.injEq] at h
          rw [← h.1]
        · rw [hoo] at h
          simp only [] at h
          simp only [Except.ok.injEq, Prod.mk.injEq] at h
          rw [← h.1]
  · intro o hhead
    have hps : pySortDescBy (fun o => o.order_date)
        ((db.get_customer_orders st.customer_id).filter (fun o => o.status = "delivered")) =
        List.insertionSort (keyGE (fun o => o.order_date))
          ((db.get_customer_orders st.customer_id).filter
            (fun o => o.status = "delivered")) := rfl
    have hperm := List.perm_insertionSort (keyGE (fun o => o.order_date))
      ((db.get_customer_orders st.customer_id).filter (fun o => o.status = "delivered"))
    have hsorted := List.sorted_insertionSort (keyGE (fun o => o.order_date))
      ((db.get_customer_orders st.customer_id).filter (fun o => o.status = "delivered"))
    rw [hps] at hhead
    cases hS : List.insertionSort (keyGE (fun o => o.order_date))
        ((db.get_customer_orders st.customer_id).filter
          (fun o => o.status = "delivered")) with
    | nil =>
      rw [hS] at hhead
      exact absurd hhead (by simp)
    | cons a t =>
      rw [hS] at hhead
      simp only [List.head?_cons, Option.some.injEq] at hhead
      subst hhead
      rw [hS] at hperm hsorted
      have hmemL : a ∈ (db.get_customer_orders st.customer_id).filter
          (fun o => o.status = "delivered") :=
        hperm.mem_iff.mp (List.mem_cons_self a t)
      obtain ⟨hmemOrd, hdel⟩ := List.mem_filter.mp hmemL
      have hdel2 : a.status = "delivered" := of_decide_eq_true hdel
      have hcid : a.customer_id = st.customer_id := by
        have := List.mem_filter.mp (show a ∈ db.orders.filter
          (fun o => o.customer_id = st.customer_id) from hmemOrd)
        exact of_decide_eq_true this.2
      refine ⟨hmemOrd, hcid, hdel2, ?_⟩
      intro o2 hmem2 hdel3
      have hmem2L : o2 ∈ (db.get_customer_orders st.customer_id).filter
          (fun o => o.status = "delivered") :=
        List.mem_filter.mpr ⟨hmem2, by simp [hdel3]⟩
      have hmem2S : o2 ∈ a :: t := hperm.mem_iff.mpr hmem2L
      rcases List.mem_cons.mp hmem2S with heq | hmemT
      · exact le_of_eq (by rw [heq])
      · exact List.rel_of_sorted_cons hsorted o2 hmemT

/-- Witness for C7: with two delivered orders the inferred one is the later
(`ORD009`, dated 2024-02-01), and the earlier order's date is bounded by
it. -/
theorem C7_inferred_order_witness :
    ord7.order_date ≤ ordY.order_date :=
  ((((C7_inferred_order dbC7 stC7 (by decide) (by decide) (by decide)).2 ordY
      (by decide)).2.2.2) ord7 (by decide) (by decide))

/-- C10: a zero refund-amount hint is falsy in Python, so when the order is
found the workflow overwrites it with the order's total exactly as when the
hint is absent — the whole run is extensionally the same, and the fetched
state carries the order's total as the refund amount. -/
theorem C10_zero_hint_like_absent (oracle : OracleOutcome) (db : DB)
    (message customer_id case_id : String) (img : Option (List Nat))
    (oid : String) (o : Order)
    (hext : extract_order_id message = some oid)
    (ho : db.get_order oid = some o) :
    process_request noFaults oracle db "REFUND_REQUEST" message customer_id case_id img
        (some 0) =
      process_request noFaults oracle db "REFUND_REQUEST" message customer_id case_id img
        none ∧
    (∀ st' db', fetch_order_node noFaults db
        (initial_state "REFUND_REQUEST" message customer_id case_id img (some 0)) =
          .ok (st', db') →
      st'.refund_amount = some o.total_amount) := by
  have hpf0 : pyFalsyAmount (some (0 : ℚ)) = true := by decide
  have hfA := fetch_order_found db
    (initial_state "REFUND_REQUEST" message customer_id case_id img (some 0)) oid o rfl hext ho
  have hfB := fetch_order_found db
    (initial_state "REFUND_REQUEST" message customer_id case_id img none) oid o rfl hext ho
  rcases hfeA : fetch_order_node noFaults db
      (initial_state "REFUND_REQUEST" message customer_id case_id img (some 0))
      with erA | ⟨stA, dbA⟩
  · rw [hfeA] at hfA
    exact absurd hfA (by simp)
  rcases hfeB : fetch_order_node noFaults db
      (initial_state "REFUND_REQUEST" message customer_id case_id img none)
      with erB | ⟨stB, dbB⟩
  · rw [hfeB] at hfB
    exact absurd hfB (by simp)
  rw [hfeA] at hfA
  rw [hfeB] at hfB
  simp only [Except.ok.injEq, Prod.mk.injEq] at hfA hfB
  obtain ⟨hstA, hdbA⟩ := hfA
  obtain ⟨hstB, hdbB⟩ := hfB
  have hAB : stA = stB := by
    rw [hstA, hstB]
    simp [initial_state, hpf0, pyFalsyAmount]
  constructor
  · unfold process_request run_workflow
    rw [hfeA, hfeB, hAB, hdbA, hdbB]
  · intro st' db' h
    simp only [Except.ok.injEq, Prod.mk.injEq] at h
    rw [← h.1, hstA]
    simp [initial_state, hpf0]

/-- Witness for C10 at the concrete order `ORD007`. -/
theorem C10_zero_hint_like_absent_witness :
    process_request noFaults .parseError db0 "REFUND_REQUEST" "refund ORD007" "C1" "K13"
        none (some 0) =
      process_request noFaults .parseError db0 "REFUND_REQUEST" "refund ORD007" "C1" "K13"
        none none :=
  (C10_zero_hint_like_absent .parseError db0 "refund ORD007" "C1" "K13" none "ORD007" ord7
    (by decide) (by decide)).1

end CareEngine
